import Mathlib

/-!
# Meridio-Experiment: the `run` commands of the controller-manager and of the router

Shallow embedding of

* `cmd/controller-manager/cmd/run.go` (namespace `ControllerManager`),
* `cmd/router/cmd/run.go` (namespace `Router`).

Both files are sequential wiring code: they read the command-line options, build the
controllers, register them with a controller-runtime manager and start it.  The calls
into other packages are modelled by an environment (`Env`) that fixes what each external
call returns; a run of the program is the list of external calls it makes (its trace)
together with the way it ends.
-/

namespace Meridio

/-- Go `error` values, identified by their message. -/
abbrev GoError := String

/-- The way a piece of Go code ends: it returns a value, the process exits
(`os.Exit`), or the goroutine panics. -/
inductive Res (α : Type) where
  | ok (a : α)
  | exited
  | panicked
  deriving DecidableEq, Repr

/-- An execution: the external calls made so far, in order, and how the code ended. -/
structure Exec (ε : Type) (α : Type) where
  trace : List ε
  result : Res α

namespace Exec

/-- Sequencing: the continuation runs only when the first part returned. -/
def bind {ε α β : Type} (m : Exec ε α) (f : α → Exec ε β) : Exec ε β :=
  match m.result with
  | .ok a => ⟨m.trace ++ (f a).trace, (f a).result⟩
  | .exited => ⟨m.trace, .exited⟩
  | .panicked => ⟨m.trace, .panicked⟩

instance instMonadExec {ε : Type} : Monad (Exec ε) where
  pure a := ⟨[], .ok a⟩
  bind := Exec.bind

/-- Record one external call. -/
def emit {ε : Type} (e : ε) : Exec ε Unit := ⟨[e], .ok ()⟩

/-- The process exits here. -/
def exit {ε α : Type} : Exec ε α := ⟨[], .exited⟩

/-- A Go runtime panic. -/
def panic {ε α : Type} : Exec ε α := ⟨[], .panicked⟩

end Exec

/-- A `runtime.Scheme`: the API groups registered in it, in registration order. -/
abbrev Scheme := List String

/-- A `client.Client` handle. -/
abbrev Client := Nat

/-- What `ctrl.NewManager` hands back: `GetClient()` and `GetScheme()` of the manager. -/
structure Manager where
  client : Client
  scheme : Scheme
  deriving DecidableEq, Repr

/-- The fields of `ctrl.Options` set by the `run` functions. -/
structure ManagerOptions where
  Scheme : Scheme
  LeaderElection : Bool
  MetricsBindAddress : String
  HealthProbeBindAddress : String
  deriving DecidableEq, Repr

/-- The value cobra stores for `Flags().StringVar(p, name, value, usage)`: the value given
on the command line, or the default `value` when the flag is not given. -/
def StringVar (value : String) (given : Option String) : String :=
  match given with
  | some v => v
  | none => value

/-- External calls made by the `run` functions (`κ` is the type of the controllers
registered with `SetupWithManager`) and by the goroutine the router spawns. -/
inductive Event (κ : Type) where
  | addToScheme (pkg : String)
  | logNew (name : String) (level : String)
  | setLogger
  | getConfigOrDie
  | newManager (o : ManagerOptions)
  | fatal (msg : String) (err : GoError) (kv : List String)
  | setupWithManager (c : κ)
  | addHealthzCheck (name : String)
  | addReadyzCheck (name : String)
  | mgrStart
  | birdNew
  | goBird
  | birdRun
  | birdRunReturned (err : Option GoError)
  | logError (err : GoError) (msg : String)
  deriving DecidableEq, Repr

/-- What the packages called by `run` return (`none`: a nil error).  `fatalReturns` says
whether `log.Fatal` returns to its caller. -/
structure Env (κ : Type) where
  addClientGoScheme : Option GoError
  addV1alpha1 : Option GoError
  installGatewayAPI : Option GoError
  getConfig : Option GoError
  newManager : ManagerOptions → Option Manager × Option GoError
  setupWithManager : κ → Option GoError
  addHealthzCheck : Option GoError
  addReadyzCheck : Option GoError
  mgrStart : Option GoError
  fatalReturns : Bool

/-- The `utilruntime.Must(pkg.AddToScheme(scheme))` statement: panics on an error. -/
def Must {κ : Type} (pkg : String) (err : Option GoError) (scheme : Scheme) :
    Exec (Event κ) Scheme := do
  Exec.emit (Event.addToScheme pkg)
  match err with
  | some _ => Exec.panic
  | none => pure (scheme ++ [pkg])

/-- The `ctrl.GetConfigOrDie()` call: exits the process on an error. -/
def GetConfigOrDie {κ : Type} (env : Env κ) : Exec (Event κ) Unit := do
  Exec.emit Event.getConfigOrDie
  match env.getConfig with
  | some _ => Exec.exit
  | none => pure ()

/-- The `log.Fatal(setupLog, msg, "err", err, kv...)` call. -/
def Fatal {κ : Type} (env : Env κ) (msg : String) (err : GoError) (kv : List String) :
    Exec (Event κ) Unit := do
  Exec.emit (Event.fatal msg err kv)
  if env.fatalReturns then pure () else Exec.exit

/-- The statement `if err != nil { body }`. -/
def ifErr {κ : Type} (err : Option GoError) (body : GoError → Exec (Event κ) Unit) :
    Exec (Event κ) Unit :=
  match err with
  | some e => body e
  | none => pure ()

/-- The `mgr.GetClient()` call: a method call on a nil interface panics. -/
def GetClient {κ : Type} (mgr : Option Manager) : Exec (Event κ) Client :=
  match mgr with
  | some m => pure m.client
  | none => Exec.panic

/-- The `mgr.GetScheme()` call. -/
def GetScheme {κ : Type} (mgr : Option Manager) : Exec (Event κ) Scheme :=
  match mgr with
  | some m => pure m.scheme
  | none => Exec.panic

/-- A method call on `mgr` (`AddHealthzCheck`, `AddReadyzCheck`, `Start`) returning the
error `err`. -/
def onManager {κ : Type} (mgr : Option Manager) (e : Event κ) (err : Option GoError) :
    Exec (Event κ) (Option GoError) :=
  match mgr with
  | some _ => do Exec.emit e; pure err
  | none => Exec.panic

/-- The error returned to `run` by the call an event records, for the calls whose
error `run` checks with `if err != nil`. -/
def response {κ : Type} (env : Env κ) : Event κ → Option GoError
  | Event.newManager o => (env.newManager o).2
  | Event.setupWithManager c => env.setupWithManager c
  | Event.addHealthzCheck _ => env.addHealthzCheck
  | Event.addReadyzCheck _ => env.addReadyzCheck
  | Event.mgrStart => env.mgrStart
  | _ => none

/-- The control flow `run` is claimed to have over its checked calls: the calls are made
in order, each with the message and key/values of its `log.Fatal`; a call that returns
an error is followed by `log.Fatal` and the process exits, so no later call is made. -/
def failFast {κ : Type} (env : Env κ) :
    List (Event κ × String × List String) → Exec (Event κ) Unit
  | [] => pure ()
  | (ev, msg, kv) :: rest =>
    match response env ev with
    | some e => ⟨[ev, Event.fatal msg e kv], Res.exited⟩
    | none => ⟨ev :: (failFast env rest).trace, (failFast env rest).result⟩

/-- Whether the statements after `if err != nil { log.Fatal(...) }` are reached: the
error is nil, or `log.Fatal` returns. -/
def passes {κ : Type} (env : Env κ) (err : Option GoError) : Bool :=
  err.isNone || env.fatalReturns

/-- Whether the calls before `ctrl.NewManager` succeed: the three scheme registrations
(else `utilruntime.Must` panics) and `ctrl.GetConfigOrDie` (else the process exits). -/
def startsUp {κ : Type} (env : Env κ) : Bool :=
  env.addClientGoScheme.isNone && env.addV1alpha1.isNone && env.installGatewayAPI.isNone &&
    env.getConfig.isNone

/-- A pod, by its identity. -/
abbrev Pod := String

/-- The type of `networkattachment.GetIPs` and of the `GetIPsFunc` fields. -/
abbrev GetIPsFunc := Pod → Except GoError (List String)

/-- The fields of `gateway.Controller` set by `run`. -/
structure gateway.Controller where
  Client : Client
  Scheme : Scheme
  GatewayClassName : String

/-- The fields of `reconciler.EndpointSlice` set by `run`. -/
structure reconciler.EndpointSlice where
  Client : Client
  Scheme : Scheme
  GetIPsFunc : GetIPsFunc

/-- The fields of `reconciler.Service` set by `run`. -/
structure reconciler.Service where
  Client : Client
  EndpointSliceReconciler : reconciler.EndpointSlice

/-- The fields of `endpointslice.Controller` set by `run`. -/
structure endpointslice.Controller where
  Client : Client
  Scheme : Scheme
  GatewayClassName : String
  ServiceReconciler : reconciler.Service

/-- The fields of `network.Annotater` set by `run`. -/
structure network.Annotater where
  MinTableID : Int
  MaxTableID : Int
  deriving DecidableEq, Repr

/-- The fields of `podnetworkannotator.Controller` set by `run`. -/
structure podnetworkannotator.Controller where
  Client : Client
  Scheme : Scheme
  GatewayClassName : String
  GetIPsFunc : GetIPsFunc
  NetworkAnnotator : network.Annotater

/-- A `*bird.Bird` handle, as returned by `bird.New()`. -/
abbrev Bird := Nat

/-- The fields of `router.Controller` set by `run`. -/
structure router.Controller where
  Client : Client
  Scheme : Scheme
  RoutingSuiteInstance : Bird
  Name : String
  Namespace : String
  deriving DecidableEq, Repr

/-- The scheme both `run` functions pass to `ctrl.NewManager` once their three
registrations succeeded. -/
def registered : Scheme := ["clientgoscheme", "v1alpha1", "gatewayapiv1"]

/-! ## cmd/controller-manager/cmd/run.go -/

namespace ControllerManager

/-- Translation of `runOptions` (controller-manager); `LogLevel` is the field of the
embedded `cli.CommonOptions` that `run` reads. -/
structure runOptions where
  LogLevel : String
  gatewayClassName : String
  deriving DecidableEq, Repr

/-- The command-line flags as cobra parsed them (`none`: flag not given). -/
structure Flags where
  logLevel : String
  gatewayClassName : Option String
  deriving DecidableEq, Repr

/-- Translation of `newCmdRun`: the options `runOpts.run` is called with once cobra has
parsed the flags. -/
def newCmdRun (flags : Flags) : runOptions :=
  { LogLevel := flags.logLevel
    gatewayClassName := StringVar "" flags.gatewayClassName }

/-- The receivers of the three `SetupWithManager` calls. -/
inductive AnyController where
  | gateway (c : gateway.Controller)
  | endpointslice (c : endpointslice.Controller)
  | podnetworkannotator (c : podnetworkannotator.Controller)

/-- The `GatewayClassName` field of a controller. -/
def AnyController.GatewayClassName : AnyController → String
  | .gateway c => c.GatewayClassName
  | .endpointslice c => c.GatewayClassName
  | .podnetworkannotator c => c.GatewayClassName

/-- The `ctrl.Options` literal passed to `ctrl.NewManager`. -/
def managerOptions (scheme : Scheme) : ManagerOptions :=
  { Scheme := scheme
    LeaderElection := false
    MetricsBindAddress := "0"
    HealthProbeBindAddress := ":8081" }

/-- Translation of `(ro *runOptions) run(ctx)` of the controller-manager.
`GetIPs` is `networkattachment.GetIPs`. -/
def run (GetIPs : GetIPsFunc) (env : Env AnyController) (ro : runOptions) :
    Exec (Event AnyController) Unit := do
  let scheme : Scheme := []
  let scheme ← Must "clientgoscheme" env.addClientGoScheme scheme
  let scheme ← Must "v1alpha1" env.addV1alpha1 scheme
  let scheme ← Must "gatewayapiv1" env.installGatewayAPI scheme
  Exec.emit (Event.logNew "controller-manager" ro.LogLevel)
  Exec.emit Event.setLogger
  GetConfigOrDie env
  Exec.emit (Event.newManager (managerOptions scheme))
  let mgr := (env.newManager (managerOptions scheme)).1
  let err := (env.newManager (managerOptions scheme)).2
  ifErr err fun e => Fatal env "failed to create manager for controllers" e []
  let gwClient ← GetClient mgr
  let gwScheme ← GetScheme mgr
  let gw := AnyController.gateway
    { Client := gwClient
      Scheme := gwScheme
      GatewayClassName := ro.gatewayClassName }
  Exec.emit (Event.setupWithManager gw)
  let err := env.setupWithManager gw
  ifErr err fun e => Fatal env "failed to create controller" e ["controller", "Gateway"]
  let esClient ← GetClient mgr
  let esScheme ← GetScheme mgr
  let srClient ← GetClient mgr
  let esrClient ← GetClient mgr
  let esrScheme ← GetScheme mgr
  let es := AnyController.endpointslice
    { Client := esClient
      Scheme := esScheme
      GatewayClassName := ro.gatewayClassName
      ServiceReconciler :=
        { Client := srClient
          EndpointSliceReconciler :=
            { Client := esrClient
              Scheme := esrScheme
              GetIPsFunc := GetIPs } } }
  Exec.emit (Event.setupWithManager es)
  let err := env.setupWithManager es
  ifErr err fun e => Fatal env "failed to create controller" e ["controller", "EndpointSlice"]
  let pnaClient ← GetClient mgr
  let pnaScheme ← GetScheme mgr
  let pna := AnyController.podnetworkannotator
    { Client := pnaClient
      Scheme := pnaScheme
      GatewayClassName := ro.gatewayClassName
      GetIPsFunc := GetIPs
      NetworkAnnotator :=
        { MinTableID := 50000
          MaxTableID := 55000 } }
  Exec.emit (Event.setupWithManager pna)
  let err := env.setupWithManager pna
  ifErr err fun e =>
    Fatal env "failed to create controller" e ["controller", "PodNetworkAnnotator"]
  let err ← onManager mgr (Event.addHealthzCheck "healthz") env.addHealthzCheck
  ifErr err fun e => Fatal env "unable to set up health check" e []
  let err ← onManager mgr (Event.addReadyzCheck "readyz") env.addReadyzCheck
  ifErr err fun e => Fatal env "unable to set up ready check" e []
  let err ← onManager mgr Event.mgrStart env.mgrStart
  ifErr err fun e => Fatal env "failed to start manager" e []

/-- The `gateway.Controller` literal of `run`, for the manager `m`. -/
def gatewayOf (m : Manager) (ro : runOptions) : AnyController :=
  AnyController.gateway
    { Client := m.client
      Scheme := m.scheme
      GatewayClassName := ro.gatewayClassName }

/-- The `endpointslice.Controller` literal of `run`, for the manager `m`. -/
def endpointsliceOf (GetIPs : GetIPsFunc) (m : Manager) (ro : runOptions) : AnyController :=
  AnyController.endpointslice
    { Client := m.client
      Scheme := m.scheme
      GatewayClassName := ro.gatewayClassName
      ServiceReconciler :=
        { Client := m.client
          EndpointSliceReconciler :=
            { Client := m.client
              Scheme := m.scheme
              GetIPsFunc := GetIPs } } }

/-- The `podnetworkannotator.Controller` literal of `run`, for the manager `m`. -/
def podnetworkannotatorOf (GetIPs : GetIPsFunc) (m : Manager) (ro : runOptions) :
    AnyController :=
  AnyController.podnetworkannotator
    { Client := m.client
      Scheme := m.scheme
      GatewayClassName := ro.gatewayClassName
      GetIPsFunc := GetIPs
      NetworkAnnotator :=
        { MinTableID := 50000
          MaxTableID := 55000 } }

/-- The calls of `run` before `ctrl.NewManager`. -/
def firstCalls (ro : runOptions) : List (Event AnyController) :=
  [Event.addToScheme "clientgoscheme", Event.addToScheme "v1alpha1",
    Event.addToScheme "gatewayapiv1", Event.logNew "controller-manager" ro.LogLevel,
    Event.setLogger, Event.getConfigOrDie]

/-- The checked calls of `run`, in source order, each with the arguments of the
`log.Fatal` that follows it. -/
def checkedCalls (GetIPs : GetIPsFunc) (m : Manager) (ro : runOptions) :
    List (Event AnyController × String × List String) :=
  [(Event.newManager (managerOptions registered),
      "failed to create manager for controllers", []),
    (Event.setupWithManager (gatewayOf m ro),
      "failed to create controller", ["controller", "Gateway"]),
    (Event.setupWithManager (endpointsliceOf GetIPs m ro),
      "failed to create controller", ["controller", "EndpointSlice"]),
    (Event.setupWithManager (podnetworkannotatorOf GetIPs m ro),
      "failed to create controller", ["controller", "PodNetworkAnnotator"]),
    (Event.addHealthzCheck "healthz", "unable to set up health check", []),
    (Event.addReadyzCheck "readyz", "unable to set up ready check", []),
    (Event.mgrStart, "failed to start manager", [])]

/-- An environment in which every call succeeds; `log.Fatal` does not return. -/
def okEnv : Env AnyController :=
  { addClientGoScheme := none
    addV1alpha1 := none
    installGatewayAPI := none
    getConfig := none
    newManager := fun o => (some { client := 1, scheme := o.Scheme }, none)
    setupWithManager := fun _ => none
    addHealthzCheck := none
    addReadyzCheck := none
    mgrStart := none
    fatalReturns := false }

/-- A sample address lookup. -/
def sampleGetIPs : GetIPsFunc := fun pod => Except.ok [pod ++ "-net1"]

/-- Sample options: `--gateway-class-name meridio`. -/
def sampleOptions : runOptions :=
  { LogLevel := "info", gatewayClassName := "meridio" }

/-- The EndpointSlice controller `run` registers in `okEnv` under `sampleOptions`. -/
def sampleEndpointSlice : endpointslice.Controller :=
  { Client := 1
    Scheme := registered
    GatewayClassName := "meridio"
    ServiceReconciler :=
      { Client := 1
        EndpointSliceReconciler :=
          { Client := 1
            Scheme := registered
            GetIPsFunc := sampleGetIPs } } }

/-- The PodNetworkAnnotator controller `run` registers in `okEnv` under
`sampleOptions`. -/
def samplePodNetworkAnnotator : podnetworkannotator.Controller :=
  { Client := 1
    Scheme := registered
    GatewayClassName := "meridio"
    GetIPsFunc := sampleGetIPs
    NetworkAnnotator :=
      { MinTableID := 50000
        MaxTableID := 55000 } }

/-- The environment `okEnv` in which registering the EndpointSlice controller fails. -/
def endpointSliceFailsEnv : Env AnyController :=
  { okEnv with
    setupWithManager := fun c =>
      match c with
      | AnyController.endpointslice _ => some "no kind registered"
      | _ => none }

end ControllerManager

/-! ## cmd/router/cmd/run.go -/

namespace Router

/-- Translation of `runOptions` (router); `LogLevel` is the field of the embedded
`cli.CommonOptions` that `run` reads. -/
structure runOptions where
  LogLevel : String
  name : String
  namespace_ : String
  deriving DecidableEq, Repr

/-- The command-line flags as cobra parsed them (`none`: flag not given). -/
structure Flags where
  logLevel : String
  name : Option String
  namespace_ : Option String
  deriving DecidableEq, Repr

/-- Translation of `newCmdRun`: the options `runOpts.run` is called with once cobra has
parsed the flags. -/
def newCmdRun (flags : Flags) : runOptions :=
  { LogLevel := flags.logLevel
    name := StringVar "" flags.name
    namespace_ := StringVar "default" flags.namespace_ }

/-- The environment of the router: on top of the common calls, `bird` is the handle
`bird.New()` returns and `birdRun` the fate of `birdInstance.Run(ctx)`: `none` when it
never returns, `some r` when it returns `r`.  `ctxCancelled` says whether `ctx` is
cancelled by the time `birdInstance.Run` returns (`run` itself never inspects `ctx`, it
only passes it on). -/
structure Env extends Meridio.Env router.Controller where
  bird : Bird
  birdRun : Option (Option GoError)
  ctxCancelled : Bool

/-- Body of the goroutine started by the `go func() ...` statement: it calls
`birdInstance.Run(ctx)` and, if that returns an error, calls
`setupLog.Error(err, "failed to start bird")`. -/
def birdTask (env : Env) : Exec (Event router.Controller) Unit := do
  Exec.emit Event.birdRun
  match env.birdRun with
  | none => pure ()
  | some err =>
    Exec.emit (Event.birdRunReturned err)
    ifErr err fun e => Exec.emit (Event.logError e "failed to start bird")

/-- The `ctrl.Options` literal passed to `ctrl.NewManager`. -/
def managerOptions (scheme : Scheme) : ManagerOptions :=
  { Scheme := scheme
    LeaderElection := false
    MetricsBindAddress := "0"
    HealthProbeBindAddress := ":8082" }

/-- Translation of `(ro *runOptions) run(ctx)` of the router: the calls made by the
goroutine that executes `run`.  The goroutine spawned at `goBird` is `birdTask`. -/
def run (env : Env) (ro : runOptions) : Exec (Event router.Controller) Unit := do
  let scheme : Scheme := []
  let scheme ← Must "clientgoscheme" env.addClientGoScheme scheme
  let scheme ← Must "v1alpha1" env.addV1alpha1 scheme
  let scheme ← Must "gatewayapiv1" env.installGatewayAPI scheme
  Exec.emit (Event.logNew "Router" ro.LogLevel)
  Exec.emit Event.setLogger
  GetConfigOrDie env.toEnv
  Exec.emit (Event.newManager (managerOptions scheme))
  let mgr := (env.newManager (managerOptions scheme)).1
  let err := (env.newManager (managerOptions scheme)).2
  ifErr err fun e => Fatal env.toEnv "failed to create manager for controllers" e []
  Exec.emit Event.birdNew
  let birdInstance := env.bird
  Exec.emit Event.goBird
  let client ← GetClient mgr
  let sch ← GetScheme mgr
  let c : router.Controller :=
    { Client := client
      Scheme := sch
      RoutingSuiteInstance := birdInstance
      Name := ro.name
      Namespace := ro.namespace_ }
  Exec.emit (Event.setupWithManager c)
  let err := env.setupWithManager c
  ifErr err fun e => Fatal env.toEnv "failed to create controller" e ["controller", "Gateway"]
  let err ← onManager mgr (Event.addHealthzCheck "healthz") env.addHealthzCheck
  ifErr err fun e => Fatal env.toEnv "unable to set up health check" e []
  let err ← onManager mgr (Event.addReadyzCheck "readyz") env.addReadyzCheck
  ifErr err fun e => Fatal env.toEnv "unable to set up ready check" e []
  let err ← onManager mgr Event.mgrStart env.mgrStart
  ifErr err fun e => Fatal env.toEnv "failed to start manager" e []

/-- The two goroutines of the router process while `run` executes. -/
inductive Thread where
  | main
  | bird
  deriving DecidableEq, Repr

/-- Interleaving of the goroutine executing `run` (events `main`) with the goroutine
spawned at `goBird` (events `task`, ending as `taskEnd`) under a schedule: `true` lets
`run` take its next step, `false` lets the bird goroutine take its next step.  The bird
goroutine can only step once spawned (`spawned`).  The step of `run` after its last call
is its end (return, exit or panic), which ends the trace; so does the bird goroutine
when it ends by exiting the process or panicking. -/
def interleave : Bool → List Bool → List (Event router.Controller) →
    List (Event router.Controller) → Res Unit → List (Thread × Event router.Controller)
  | _, [], _, _, _ => []
  | _, true :: _, [], _, _ => []
  | spawned, true :: s, m :: ms, task, taskEnd =>
    (Thread.main, m) :: interleave (spawned || decide (m = Event.goBird)) s ms task taskEnd
  | false, false :: s, ms, task, taskEnd => interleave false s ms task taskEnd
  | true, false :: s, ms, t :: ts, taskEnd =>
    (Thread.bird, t) :: interleave true s ms ts taskEnd
  | true, false :: s, ms, [], Res.ok _ => interleave true s ms [] (Res.ok ())
  | true, false :: _, _, [], Res.exited => []
  | true, false :: _, _, [], Res.panicked => []

/-- The calls made by the router process while `run` executes, under a schedule. -/
def processTrace (env : Env) (ro : runOptions) (sched : List Bool) :
    List (Thread × Event router.Controller) :=
  interleave false sched (run env ro).trace (birdTask env).trace (birdTask env).result

/-- The calls of one goroutine in a process trace. -/
def eventsOf (th : Thread) (tr : List (Thread × Event router.Controller)) :
    List (Event router.Controller) :=
  (tr.filter fun p => decide (p.1 = th)).map Prod.snd

/-- An environment of the router in which every call of `run` succeeds and
`birdInstance.Run` returns an error while `ctx` is not cancelled. -/
def failingBirdEnv : Env :=
  { addClientGoScheme := none
    addV1alpha1 := none
    installGatewayAPI := none
    getConfig := none
    newManager := fun o => (some { client := 1, scheme := o.Scheme }, none)
    setupWithManager := fun _ => none
    addHealthzCheck := none
    addReadyzCheck := none
    mgrStart := none
    fatalReturns := false
    bird := 2
    birdRun := some (some "bird: exit status 1")
    ctxCancelled := false }

/-- Sample options: `--name gw-a`, `--namespace` not given. -/
def sampleOptions : runOptions :=
  newCmdRun { logLevel := "info", name := some "gw-a", namespace_ := none }

/-- The controller `run` registers in `failingBirdEnv` under `sampleOptions`. -/
def sampleController : router.Controller :=
  { Client := 1
    Scheme := registered
    RoutingSuiteInstance := 2
    Name := "gw-a"
    Namespace := "default" }

/-- A schedule: `run` goes up to the `go` statement, the bird goroutine then runs to its
end, `run` makes its remaining calls and the bird goroutine is offered further steps. -/
def sampleSchedule : List Bool :=
  List.replicate 9 true ++ List.replicate 5 false ++ List.replicate 4 true ++
    List.replicate 5 false

end Router

/-! ## The table-id allocator behind `network.Annotater` -/

/-- The key of a table-id assignment: pod identity and network name. -/
abbrev Key := Pod × String

/-- Modelled from the spec: the state of the TableIDAllocator of section 4.1, whose code
(package `network`, behind `network.Annotater`) is missing from the sources at hand.
`minID` and `maxID` bound the pool `[minID, maxID)`; `assigned` holds the live
assignments, newest first.  An id is used when a live assignment carries it. -/
structure TableIDAllocator where
  minID : Int
  maxID : Int
  assigned : List (Key × Int)
  deriving DecidableEq, Repr

namespace TableIDAllocator

/-- Modelled from the spec: the allocator of an annotater that has issued nothing yet
(the missing constructor of the pool over `maxID - minID` slots). -/
def new (a : network.Annotater) : TableIDAllocator :=
  { minID := a.MinTableID, maxID := a.MaxTableID, assigned := [] }

/-- Modelled from the spec: the `maxID - minID` slots of the pool, the ids of
`[minID, maxID)` in increasing order (missing from the sources). -/
def slots (t : TableIDAllocator) : List Int :=
  (List.range (t.maxID - t.minID).toNat).map fun (i : Nat) => t.minID + Int.ofNat i

/-- Modelled from the spec: whether an id is marked used, i.e. carried by a live
assignment (the missing bitmap test). -/
def used (t : TableIDAllocator) (id : Int) : Bool :=
  t.assigned.any fun p => p.2 == id

/-- Modelled from the spec: `Lookup(key) → (id, found)` of section 4.1 (missing from the
sources). -/
def Lookup (t : TableIDAllocator) (key : Key) : Option Int :=
  (t.assigned.find? fun p => p.1 == key).map Prod.snd

/-- Modelled from the spec: the `PoolExhausted` failure of `Allocate` (section 4.1;
missing from the sources). -/
inductive AllocError where
  | PoolExhausted
  deriving DecidableEq, Repr

/-- Modelled from the spec: `Allocate(key) → id` of section 4.1 (missing from the
sources).  A key that holds an id gets it again and no slot is consumed; otherwise the
first free slot of `[minID, maxID)` is issued, and `PoolExhausted` when none is free. -/
def Allocate (t : TableIDAllocator) (key : Key) : Except AllocError Int × TableIDAllocator :=
  match t.Lookup key with
  | some id => (Except.ok id, t)
  | none =>
    match t.slots.find? fun id => !t.used id with
    | some id => (Except.ok id, { t with assigned := (key, id) :: t.assigned })
    | none => (Except.error AllocError.PoolExhausted, t)

/-- Modelled from the spec: `Release(key)` of section 4.1 (missing from the sources);
releasing an unknown key changes nothing. -/
def Release (t : TableIDAllocator) (key : Key) : TableIDAllocator :=
  { t with assigned := t.assigned.filter fun p => !(p.1 == key) }

/-- Modelled from the spec: crash recovery of section 4.1 (missing from the sources).
On startup the ids of all existing pods' published assignments are marked used before
any `Allocate` is served; an id outside `[minID, maxID)` is kept for its pod and, not
being a slot of the pool, never issued. -/
def recover (a : network.Annotater) (published : List (Key × Int)) : TableIDAllocator :=
  { minID := a.MinTableID, maxID := a.MaxTableID, assigned := published }

/-- A call on the allocator. -/
inductive Op where
  | allocate (key : Key)
  | release (key : Key)
  deriving DecidableEq, Repr

/-- An allocator after a sequence of calls, with the `(key, id)` pairs returned by the
successful `Allocate` calls, in call order. -/
def runOps : TableIDAllocator → List Op → TableIDAllocator × List (Key × Int)
  | t, [] => (t, [])
  | t, Op.allocate key :: ops =>
    match t.Allocate key with
    | (Except.ok id, t1) => ((runOps t1 ops).1, (key, id) :: (runOps t1 ops).2)
    | (Except.error _, t1) => runOps t1 ops
  | t, Op.release key :: ops => runOps (t.Release key) ops

/-- The invariant of the pool: every live id lies in `[minID, maxID)` and no two live
assignments carry the same id. -/
def Inv (t : TableIDAllocator) : Prop :=
  (∀ p ∈ t.assigned, t.minID ≤ p.2 ∧ p.2 < t.maxID) ∧ (t.assigned.map Prod.snd).Nodup

/-- The annotater literal of controller-manager `run`. -/
def shipped : network.Annotater :=
  { MinTableID := 50000, MaxTableID := 55000 }

/-- Sample published assignments found on two existing pods at startup. -/
def samplePublished : List (Key × Int) :=
  [(("pod-a", "net1"), 50000), (("pod-b", "net1"), 50001)]

/-- Sample calls: two keys allocate, the first is released, a third key allocates. -/
def sampleOps : List Op :=
  [Op.allocate ("pod-c", "net1"), Op.allocate ("pod-d", "net1"),
    Op.release ("pod-c", "net1"), Op.allocate ("pod-e", "net1")]

end TableIDAllocator

namespace ControllerManager

end ControllerManager

end Meridio

/-! # Theorems -/

namespace Meridio

/-! ## Executions -/

namespace Exec

@[simp]
theorem mem_trace_bind {ε α β : Type} (m : Exec ε α) (f : α → Exec ε β) (e : ε) :
    e ∈ (m >>= f).trace ↔ e ∈ m.trace ∨ ∃ a, m.result = Res.ok a ∧ e ∈ (f a).trace := by
  show e ∈ (Exec.bind m f).trace ↔ _
  unfold Exec.bind
  cases h : m.result <;> simp

@[simp]
theorem result_bind_ok {ε α β : Type} (m : Exec ε α) (f : α → Exec ε β) (b : β) :
    (m >>= f).result = Res.ok b ↔ ∃ a, m.result = Res.ok a ∧ (f a).result = Res.ok b := by
  show (Exec.bind m f).result = _ ↔ _
  unfold Exec.bind
  cases h : m.result <;> simp

theorem bind_eq_of_ok {ε α β : Type} (m : Exec ε α) (f : α → Exec ε β) (a : α)
    (h : m.result = Res.ok a) :
    (m >>= f) = ⟨m.trace ++ (f a).trace, (f a).result⟩ := by
  show Exec.bind m f = _
  unfold Exec.bind
  rw [h]

@[simp]
theorem trace_pure {ε α : Type} (a : α) : (pure a : Exec ε α).trace = [] := rfl

@[simp]
theorem result_pure {ε α : Type} (a : α) : (pure a : Exec ε α).result = Res.ok a := rfl

@[simp]
theorem trace_emit {ε : Type} (e : ε) : (emit e).trace = [e] := rfl

@[simp]
theorem result_emit {ε : Type} (e : ε) : (emit e).result = Res.ok () := rfl

end Exec

/-! ## The calls shared by the two `run` functions -/

section Calls

variable {κ : Type}

@[simp]
theorem mem_trace_Must (pkg : String) (err : Option GoError) (s : Scheme) (e : Event κ) :
    e ∈ (Must pkg err s).trace ↔ e = Event.addToScheme pkg := by
  cases err <;> simp [Must, Exec.mem_trace_bind, Exec.panic]

@[simp]
theorem result_Must_ok (pkg : String) (err : Option GoError) (s a : Scheme) :
    (Must pkg err s : Exec (Event κ) Scheme).result = Res.ok a ↔
      a = s ++ [pkg] ∧ err = none := by
  cases err with
  | none => simpa [Must, Exec.result_bind_ok] using eq_comm
  | some x => simp [Must, Exec.result_bind_ok, Exec.panic]

@[simp]
theorem mem_trace_GetConfigOrDie (env : Env κ) (e : Event κ) :
    e ∈ (GetConfigOrDie env).trace ↔ e = Event.getConfigOrDie := by
  cases h : env.getConfig <;> simp [GetConfigOrDie, Exec.mem_trace_bind, Exec.exit, h]

@[simp]
theorem result_GetConfigOrDie_ok (env : Env κ) (u : Unit) :
    (GetConfigOrDie env).result = Res.ok u ↔ env.getConfig = none := by
  cases h : env.getConfig <;> simp [GetConfigOrDie, Exec.result_bind_ok, Exec.exit, h]

@[simp]
theorem mem_trace_Fatal (env : Env κ) (msg : String) (err : GoError) (kv : List String)
    (e : Event κ) : e ∈ (Fatal env msg err kv).trace ↔ e = Event.fatal msg err kv := by
  cases h : env.fatalReturns <;> simp [Fatal, Exec.mem_trace_bind, Exec.exit, h]

@[simp]
theorem result_Fatal_ok (env : Env κ) (msg : String) (err : GoError) (kv : List String)
    (u : Unit) : (Fatal env msg err kv).result = Res.ok u ↔ env.fatalReturns = true := by
  cases h : env.fatalReturns <;> simp [Fatal, Exec.result_bind_ok, Exec.exit, h]

@[simp]
theorem mem_trace_ifErr (err : Option GoError) (body : GoError → Exec (Event κ) Unit)
    (e : Event κ) : e ∈ (ifErr err body).trace ↔ ∃ x, err = some x ∧ e ∈ (body x).trace := by
  cases err <;> simp [ifErr]

@[simp]
theorem result_ifErr_ok (err : Option GoError) (body : GoError → Exec (Event κ) Unit)
    (u : Unit) :
    (ifErr err body).result = Res.ok u ↔
      err = none ∨ ∃ x, err = some x ∧ (body x).result = Res.ok u := by
  cases err <;> simp [ifErr]

@[simp]
theorem mem_trace_GetClient (mgr : Option Manager) (e : Event κ) :
    e ∈ (GetClient mgr : Exec (Event κ) Client).trace ↔ False := by
  cases mgr <;> simp [GetClient, Exec.panic]

@[simp]
theorem result_GetClient_ok (mgr : Option Manager) (c : Client) :
    (GetClient mgr : Exec (Event κ) Client).result = Res.ok c ↔
      ∃ m, mgr = some m ∧ c = m.client := by
  cases mgr with
  | none => simp [GetClient, Exec.panic]
  | some m => simpa [GetClient] using eq_comm

@[simp]
theorem mem_trace_GetScheme (mgr : Option Manager) (e : Event κ) :
    e ∈ (GetScheme mgr : Exec (Event κ) Scheme).trace ↔ False := by
  cases mgr <;> simp [GetScheme, Exec.panic]

@[simp]
theorem result_GetScheme_ok (mgr : Option Manager) (s : Scheme) :
    (GetScheme mgr : Exec (Event κ) Scheme).result = Res.ok s ↔
      ∃ m, mgr = some m ∧ s = m.scheme := by
  cases mgr with
  | none => simp [GetScheme, Exec.panic]
  | some m => simpa [GetScheme] using eq_comm

@[simp]
theorem mem_trace_onManager (mgr : Option Manager) (ev : Event κ) (err : Option GoError)
    (e : Event κ) : e ∈ (onManager mgr ev err).trace ↔ (∃ m, mgr = some m) ∧ e = ev := by
  cases mgr <;> simp [onManager, Exec.mem_trace_bind, Exec.panic]

@[simp]
theorem result_onManager_ok (mgr : Option Manager) (ev : Event κ) (err r : Option GoError) :
    (onManager mgr ev err).result = Res.ok r ↔ (∃ m, mgr = some m) ∧ r = err := by
  cases mgr with
  | none => simp [onManager, Exec.panic]
  | some m => simpa [onManager, Exec.result_bind_ok] using eq_comm

/-- In the fail-fast pipeline a call that returns an error is the last call made: only
its `log.Fatal` follows, and the process exits. -/
theorem failFast_spec (env : Env κ) (steps : List (Event κ × String × List String))
    (ev : Event κ) (x : GoError) (hev : ev ∈ (failFast env steps).trace)
    (hx : response env ev = some x) :
    (failFast env steps).result = Res.exited ∧
      ∃ l msg kv, (failFast env steps).trace = l ++ [ev, Event.fatal msg x kv] := by
  induction steps with
  | nil => simp [failFast] at hev
  | cons s rest ih =>
    obtain ⟨ev1, msg1, kv1⟩ := s
    unfold failFast at hev ⊢
    rcases h1 : response env ev1 with _ | e
    · simp only [h1] at hev
      rcases List.mem_cons.mp hev with h | h
      · rw [h, h1] at hx
        cases hx
      · obtain ⟨hr, l, msg, kv, hl⟩ := ih h
        exact ⟨by simp [h1, hr], ev1 :: l, msg, kv, by simp [h1, hl]⟩
    · simp only [h1, List.mem_cons, List.mem_singleton, List.not_mem_nil, or_false] at hev
      rcases hev with h | h
      · rw [h, h1] at hx
        cases hx
        exact ⟨by simp [h1], [], msg1, kv1, by simp [h1, h]⟩
      · rw [h] at hx
        simp [response] at hx

end Calls

end Meridio

namespace Meridio

namespace ControllerManager

/-- Every controller `run` registers is one of its three literals, built from the
manager that `ctrl.NewManager` returned. -/
theorem mem_trace_run_setup (GetIPs : GetIPsFunc) (env : Env AnyController) (ro : runOptions)
    (c : AnyController) (h : Event.setupWithManager c ∈ (run GetIPs env ro).trace) :
    ∃ m : Manager, (env.newManager (managerOptions registered)).1 = some m ∧
      (c = gatewayOf m ro ∨ c = endpointsliceOf GetIPs m ro ∨
        c = podnetworkannotatorOf GetIPs m ro) := by
  simp [run, and_assoc] at h
  rcases hmgr : (env.newManager (managerOptions registered)).1 with _ | m
  · simp [registered] at hmgr
    simp [hmgr] at h
  · refine ⟨m, rfl, ?_⟩
    simp only [registered] at hmgr
    simp [hmgr] at h
    simp only [gatewayOf, endpointsliceOf, podnetworkannotatorOf]
    tauto

/-- The annotater of every PodNetworkAnnotator controller `run` registers is the
literal with bounds 50000 and 55000. -/
theorem annotater_of_mem (GetIPs : GetIPsFunc) (env : Env AnyController) (ro : runOptions)
    (c : podnetworkannotator.Controller)
    (h : Event.setupWithManager (AnyController.podnetworkannotator c) ∈
      (run GetIPs env ro).trace) :
    c.NetworkAnnotator = { MinTableID := 50000, MaxTableID := 55000 } := by
  obtain ⟨m, -, h | h | h⟩ := mem_trace_run_setup GetIPs env ro _ h
  · simp [gatewayOf] at h
  · simp [endpointsliceOf] at h
  · simp only [podnetworkannotatorOf, AnyController.podnetworkannotator.injEq] at h
    rw [h]

/-- When every call succeeds, `run` makes exactly these calls and returns. -/
theorem run_ok (GetIPs : GetIPsFunc) (env : Env AnyController) (ro : runOptions) (m : Manager)
    (h1 : env.addClientGoScheme = none) (h2 : env.addV1alpha1 = none)
    (h3 : env.installGatewayAPI = none) (h4 : env.getConfig = none)
    (h5 : env.newManager (managerOptions registered) = (some m, none))
    (h6 : env.setupWithManager (gatewayOf m ro) = none)
    (h7 : env.setupWithManager (endpointsliceOf GetIPs m ro) = none)
    (h8 : env.setupWithManager (podnetworkannotatorOf GetIPs m ro) = none)
    (h9 : env.addHealthzCheck = none) (h10 : env.addReadyzCheck = none)
    (h11 : env.mgrStart = none) :
    (run GetIPs env ro).trace =
      [Event.addToScheme "clientgoscheme", Event.addToScheme "v1alpha1",
        Event.addToScheme "gatewayapiv1", Event.logNew "controller-manager" ro.LogLevel,
        Event.setLogger, Event.getConfigOrDie, Event.newManager (managerOptions registered),
        Event.setupWithManager (gatewayOf m ro),
        Event.setupWithManager (endpointsliceOf GetIPs m ro),
        Event.setupWithManager (podnetworkannotatorOf GetIPs m ro),
        Event.addHealthzCheck "healthz", Event.addReadyzCheck "readyz", Event.mgrStart] := by
  simp only [registered, gatewayOf, endpointsliceOf, podnetworkannotatorOf] at h5 h6 h7 h8 ⊢
  simp [run, Must, GetConfigOrDie, Fatal, ifErr, GetClient, GetScheme, onManager, bind,
    Exec.bind, Exec.emit, pure, h1, h2, h3, h4, h5, h6, h7, h8, h9, h10, h11]

/-- With a `log.Fatal` that does not return, `run` after its first calls is the
fail-fast pipeline over its checked calls. -/
theorem run_eq_failFast (GetIPs : GetIPsFunc) (env : Env AnyController) (ro : runOptions)
    (m : Manager) (hfatal : env.fatalReturns = false)
    (h1 : env.addClientGoScheme = none) (h2 : env.addV1alpha1 = none)
    (h3 : env.installGatewayAPI = none) (h4 : env.getConfig = none)
    (hm : (env.newManager (managerOptions registered)).1 = some m ∨
      ∃ y, (env.newManager (managerOptions registered)).2 = some y) :
    run GetIPs env ro =
      ⟨firstCalls ro ++ (failFast env (checkedCalls GetIPs m ro)).trace,
        (failFast env (checkedCalls GetIPs m ro)).result⟩ := by
  simp only [registered, gatewayOf, endpointsliceOf, podnetworkannotatorOf, checkedCalls,
    firstCalls, failFast, response] at hm ⊢
  rcases e5 : (env.newManager (managerOptions ["clientgoscheme", "v1alpha1", "gatewayapiv1"])).2 with _ | x
  swap
  · clear hm
    simp [*, run, Must, GetConfigOrDie, Fatal, ifErr, GetClient, GetScheme, onManager, bind,
      Exec.bind, Exec.emit, Exec.exit, pure]
  replace hm : (env.newManager
      (managerOptions ["clientgoscheme", "v1alpha1", "gatewayapiv1"])).1 = some m := by
    simpa [e5] using hm
  rcases e6 : env.setupWithManager (AnyController.gateway
      { Client := m.client, Scheme := m.scheme, GatewayClassName := ro.gatewayClassName }) with _ | x
  swap
  · simp [*, run, Must, GetConfigOrDie, Fatal, ifErr, GetClient, GetScheme, onManager, bind,
      Exec.bind, Exec.emit, Exec.exit, pure]
  rcases e7 : env.setupWithManager (AnyController.endpointslice
      { Client := m.client, Scheme := m.scheme, GatewayClassName := ro.gatewayClassName
        ServiceReconciler :=
          { Client := m.client
            EndpointSliceReconciler :=
              { Client := m.client, Scheme := m.scheme, GetIPsFunc := GetIPs } } }) with _ | x
  swap
  · simp [*, run, Must, GetConfigOrDie, Fatal, ifErr, GetClient, GetScheme, onManager, bind,
      Exec.bind, Exec.emit, Exec.exit, pure]
  rcases e8 : env.setupWithManager (AnyController.podnetworkannotator
      { Client := m.client, Scheme := m.scheme, GatewayClassName := ro.gatewayClassName
        GetIPsFunc := GetIPs
        NetworkAnnotator := { MinTableID := 50000, MaxTableID := 55000 } }) with _ | x
  swap
  · simp [*, run, Must, GetConfigOrDie, Fatal, ifErr, GetClient, GetScheme, onManager, bind,
      Exec.bind, Exec.emit, Exec.exit, pure]
  rcases e9 : env.addHealthzCheck with _ | x
  swap
  · simp [*, run, Must, GetConfigOrDie, Fatal, ifErr, GetClient, GetScheme, onManager, bind,
      Exec.bind, Exec.emit, Exec.exit, pure]
  rcases e10 : env.addReadyzCheck with _ | x
  swap
  · simp [*, run, Must, GetConfigOrDie, Fatal, ifErr, GetClient, GetScheme, onManager, bind,
      Exec.bind, Exec.emit, Exec.exit, pure]
  rcases e11 : env.mgrStart with _ | x
  swap
  · simp [*, run, Must, GetConfigOrDie, Fatal, ifErr, GetClient, GetScheme, onManager, bind,
      Exec.bind, Exec.emit, Exec.exit, pure]
  simp [*, run, Must, GetConfigOrDie, Fatal, ifErr, GetClient, GetScheme, onManager, bind,
      Exec.bind, Exec.emit, Exec.exit, pure]

/-- The manager is started only after every checked call succeeded. -/
theorem start_reached (GetIPs : GetIPsFunc) (env : Env AnyController) (ro : runOptions)
    (hfatal : env.fatalReturns = false)
    (h : Event.mgrStart ∈ (run GetIPs env ro).trace) :
    ∃ m, env.newManager (managerOptions registered) = (some m, none) ∧
      env.setupWithManager (gatewayOf m ro) = none ∧
      env.setupWithManager (endpointsliceOf GetIPs m ro) = none ∧
      env.setupWithManager (podnetworkannotatorOf GetIPs m ro) = none ∧
      env.addHealthzCheck = none ∧ env.addReadyzCheck = none ∧
      ∃ tail, (run GetIPs env ro).trace =
          firstCalls ro ++ (checkedCalls GetIPs m ro).map Prod.fst ++ tail ∧
        ∀ e ∈ tail, response env e = none := by
  rcases hmgr : (env.newManager (managerOptions ["clientgoscheme", "v1alpha1", "gatewayapiv1"])).1
    with _ | m
  · simp [run, and_assoc, hfatal, hmgr] at h
  · simp [run, and_assoc, hfatal, hmgr] at h
    obtain ⟨h1, h2, h3, h4, h5, h6, h7, h8, h9, h10⟩ := h
    have hrun := run_eq_failFast GetIPs env ro m hfatal h1 h2 h3 h4 (Or.inl hmgr)
    simp only [registered, gatewayOf, endpointsliceOf, podnetworkannotatorOf, checkedCalls,
      firstCalls] at hrun ⊢
    refine ⟨m, Prod.ext hmgr h5, h6, h7, h8, h9, h10, ?_⟩
    rcases h11 : env.mgrStart with _ | x
    · exact ⟨[], by simp [hrun, failFast, response, *], by simp⟩
    · exact ⟨[Event.fatal "failed to start manager" x []],
        by simp [hrun, failFast, response, *], by simp [response]⟩

/-- Outside the fail-fast pipeline `run` ends early without any failed checked call:
a scheme registration panics, `GetConfigOrDie` exits, or the manager is nil. -/
theorem early_end (GetIPs : GetIPsFunc) (env : Env AnyController) (ro : runOptions)
    (h : (∃ y, env.addClientGoScheme = some y) ∨ (∃ y, env.addV1alpha1 = some y) ∨
      (∃ y, env.installGatewayAPI = some y) ∨ (∃ y, env.getConfig = some y) ∨
      env.newManager (managerOptions registered) = (none, none))
    (ev : Event AnyController) (hev : ev ∈ (run GetIPs env ro).trace) :
    response env ev = none := by
  simp only [registered] at h
  rcases e1 : env.addClientGoScheme with _ | y
  swap
  · have hrun : (run GetIPs env ro).trace = [Event.addToScheme "clientgoscheme"] := by
      simp [run, Must, GetConfigOrDie, Fatal, ifErr, GetClient, GetScheme, onManager,
        bind, Exec.bind, Exec.emit, Exec.exit, Exec.panic, pure, e1]
    rw [hrun] at hev
    simp only [List.mem_singleton] at hev
    rw [hev]
    rfl
  rcases e2 : env.addV1alpha1 with _ | y
  swap
  · have hrun : (run GetIPs env ro).trace =
        [Event.addToScheme "clientgoscheme", Event.addToScheme "v1alpha1"] := by
      simp [run, Must, GetConfigOrDie, Fatal, ifErr, GetClient, GetScheme, onManager,
        bind, Exec.bind, Exec.emit, Exec.exit, Exec.panic, pure, e1, e2]
    rw [hrun] at hev
    simp only [List.mem_cons, List.mem_singleton, List.not_mem_nil, or_false] at hev
    rcases hev with h | h <;> rw [h] <;> rfl
  rcases e3 : env.installGatewayAPI with _ | y
  swap
  · have hrun : (run GetIPs env ro).trace =
        [Event.addToScheme "clientgoscheme", Event.addToScheme "v1alpha1",
          Event.addToScheme "gatewayapiv1"] := by
      simp [run, Must, GetConfigOrDie, Fatal, ifErr, GetClient, GetScheme, onManager,
        bind, Exec.bind, Exec.emit, Exec.exit, Exec.panic, pure, e1, e2, e3]
    rw [hrun] at hev
    simp only [List.mem_cons, List.mem_singleton, List.not_mem_nil, or_false] at hev
    rcases hev with h | h | h <;> rw [h] <;> rfl
  rcases e4 : env.getConfig with _ | y
  swap
  · have hrun : (run GetIPs env ro).trace = firstCalls ro := by
      simp [run, Must, GetConfigOrDie, Fatal, ifErr, GetClient, GetScheme, onManager,
        bind, Exec.bind, Exec.emit, Exec.exit, Exec.panic, pure, firstCalls, e1, e2, e3, e4]
    rw [hrun] at hev
    simp only [firstCalls, List.mem_cons, List.mem_singleton, List.not_mem_nil,
      or_false] at hev
    rcases hev with h | h | h | h | h | h <;> rw [h] <;> rfl
  simp only [e1, e2, e3, e4, exists_false, false_or, reduceCtorEq] at h
  have hrun : (run GetIPs env ro).trace =
      firstCalls ro ++ [Event.newManager (managerOptions registered)] := by
    simp [run, Must, GetConfigOrDie, Fatal, ifErr, GetClient, GetScheme, onManager,
        bind, Exec.bind, Exec.emit, Exec.exit, Exec.panic, pure, firstCalls, registered, e1, e2, e3, e4, h]
  rw [hrun] at hev
  simp only [firstCalls, List.mem_cons, List.mem_singleton, List.not_mem_nil, or_false,
    List.mem_append] at hev
  rcases hev with (h1 | h1 | h1 | h1 | h1 | h1) | h1
  any_goals (rw [h1]; rfl)
  rw [h1]
  show (env.newManager (managerOptions registered)).2 = none
  simp only [registered]
  rw [h]

/-- With a `log.Fatal` that does not return, a checked call of `run` that returns an
error is the last call `run` makes: its `log.Fatal` follows and the process exits. -/
theorem failed_call_is_last (GetIPs : GetIPsFunc) (env : Env AnyController) (ro : runOptions)
    (hfatal : env.fatalReturns = false) (ev : Event AnyController) (x : GoError)
    (hev : ev ∈ (run GetIPs env ro).trace) (hx : response env ev = some x) :
    (run GetIPs env ro).result = Res.exited ∧
      ∃ l msg kv, (run GetIPs env ro).trace = l ++ [ev, Event.fatal msg x kv] := by
  have early := fun h => early_end GetIPs env ro h ev hev
  rw [hx] at early
  rcases e1 : env.addClientGoScheme with _ | y
  swap
  · exact absurd (early (Or.inl ⟨y, e1⟩)) (by simp)
  rcases e2 : env.addV1alpha1 with _ | y
  swap
  · exact absurd (early (Or.inr (Or.inl ⟨y, e2⟩))) (by simp)
  rcases e3 : env.installGatewayAPI with _ | y
  swap
  · exact absurd (early (Or.inr (Or.inr (Or.inl ⟨y, e3⟩)))) (by simp)
  rcases e4 : env.getConfig with _ | y
  swap
  · exact absurd (early (Or.inr (Or.inr (Or.inr (Or.inl ⟨y, e4⟩))))) (by simp)
  have key : ∀ m : Manager,
      ((env.newManager (managerOptions registered)).1 = some m ∨
        ∃ y, (env.newManager (managerOptions registered)).2 = some y) →
      (run GetIPs env ro).result = Res.exited ∧
        ∃ l msg kv, (run GetIPs env ro).trace = l ++ [ev, Event.fatal msg x kv] := by
    intro m hm
    have hrun := run_eq_failFast GetIPs env ro m hfatal e1 e2 e3 e4 hm
    rw [hrun] at hev ⊢
    simp only [List.mem_append] at hev
    rcases hev with h | h
    · exfalso
      simp only [firstCalls, List.mem_cons, List.mem_singleton, List.not_mem_nil,
        or_false] at h
      rcases h with h | h | h | h | h | h <;> rw [h] at hx <;> cases hx
    · obtain ⟨hr, l, msg, kv, hl⟩ := failFast_spec env _ ev x h hx
      exact ⟨hr, firstCalls ro ++ l, msg, kv, by simp [hl]⟩
  rcases hm : (env.newManager (managerOptions registered)).1 with _ | m
  · rcases he : (env.newManager (managerOptions registered)).2 with _ | y
    · exact absurd (early (Or.inr (Or.inr (Or.inr (Or.inr (Prod.ext hm he)))))) (by simp)
    · exact key ⟨0, []⟩ (Or.inr ⟨y, he⟩)
  · exact key m (Or.inl hm)

end ControllerManager

end Meridio
namespace Meridio

@[simp]
theorem passes_eq_true {κ : Type} (env : Env κ) (err : Option GoError) :
    passes env err = true ↔ err = none ∨ env.fatalReturns = true := by
  cases err <;> simp [passes]

@[simp]
theorem startsUp_eq_true {κ : Type} (env : Env κ) :
    startsUp env = true ↔ env.addClientGoScheme = none ∧ env.addV1alpha1 = none ∧
      env.installGatewayAPI = none ∧ env.getConfig = none := by
  simp [startsUp, and_assoc]

theorem none_or_some_and {α : Type} (o : Option α) (p : Prop) :
    (o = none ∨ (∃ x, o = some x) ∧ p) ↔ (o = none ∨ p) := by
  cases o <;> simp

namespace ControllerManager

set_option maxHeartbeats 2000000 in
/-- The controllers `run` registers, and when: after a successful start-up and with a
manager at hand, the Gateway controller, then the EndpointSlice controller, then the
PodNetworkAnnotator controller, each once the checks before it are passed. -/
theorem setup_mem_iff (GetIPs : GetIPsFunc) (env : Env AnyController) (ro : runOptions)
    (c : AnyController) :
    Event.setupWithManager c ∈ (run GetIPs env ro).trace ↔
      startsUp env = true ∧
      passes env (env.newManager (managerOptions registered)).2 = true ∧
      ∃ m, (env.newManager (managerOptions registered)).1 = some m ∧
        (c = gatewayOf m ro ∨
          passes env (env.setupWithManager (gatewayOf m ro)) = true ∧
            (c = endpointsliceOf GetIPs m ro ∨
              passes env (env.setupWithManager (endpointsliceOf GetIPs m ro)) = true ∧
                c = podnetworkannotatorOf GetIPs m ro)) := by
  simp only [registered, gatewayOf, endpointsliceOf, podnetworkannotatorOf]
  rcases hmgr : (env.newManager (managerOptions ["clientgoscheme", "v1alpha1", "gatewayapiv1"])).1
    with _ | m
  · simp [run, and_assoc, hmgr]
  · simp [run, and_assoc, hmgr, none_or_some_and]

end ControllerManager

namespace Router

/-- The controller the router's `run` registers, and when. -/
theorem router_setup_mem_iff (env : Env) (ro : runOptions) (c : router.Controller) :
    Event.setupWithManager c ∈ (run env ro).trace ↔
      startsUp env.toEnv = true ∧
      passes env.toEnv (env.newManager (managerOptions registered)).2 = true ∧
      ∃ m, (env.newManager (managerOptions registered)).1 = some m ∧
        c = { Client := m.client, Scheme := m.scheme, RoutingSuiteInstance := env.bird
              Name := ro.name, Namespace := ro.namespace_ } := by
  simp only [registered]
  rcases hmgr : (env.newManager (managerOptions ["clientgoscheme", "v1alpha1", "gatewayapiv1"])).1
    with _ | m
  · simp [run, and_assoc, hmgr]
  · simp [run, and_assoc, hmgr, none_or_some_and]

/-- When the router's `run` executes its `go` statement. -/
theorem router_goBird_mem_iff (env : Env) (ro : runOptions) :
    Event.goBird ∈ (run env ro).trace ↔
      startsUp env.toEnv = true ∧
      passes env.toEnv (env.newManager (managerOptions registered)).2 = true := by
  simp [run, and_assoc, none_or_some_and, registered]

/-- When the router's `run` starts the manager. -/
theorem router_start_mem_iff (env : Env) (ro : runOptions) :
    Event.mgrStart ∈ (run env ro).trace ↔
      startsUp env.toEnv = true ∧
      passes env.toEnv (env.newManager (managerOptions registered)).2 = true ∧
      ∃ m, (env.newManager (managerOptions registered)).1 = some m ∧
        passes env.toEnv (env.setupWithManager
          { Client := m.client, Scheme := m.scheme, RoutingSuiteInstance := env.bird
            Name := ro.name, Namespace := ro.namespace_ }) = true ∧
        passes env.toEnv env.addHealthzCheck = true ∧
        passes env.toEnv env.addReadyzCheck = true := by
  simp only [registered]
  rcases hmgr : (env.newManager (managerOptions ["clientgoscheme", "v1alpha1", "gatewayapiv1"])).1
    with _ | m
  · simp [run, and_assoc, hmgr]
  · simp [run, and_assoc, hmgr, none_or_some_and]

end Router
end Meridio
namespace Meridio

namespace Exec

theorem pure_bind {ε α β : Type} (a : α) (f : α → Exec ε β) : (pure a >>= f) = f a := by
  show Exec.bind ⟨[], Res.ok a⟩ f = f a
  simp [Exec.bind]

theorem bind_assoc {ε α β γ : Type} (m : Exec ε α) (f : α → Exec ε β) (g : β → Exec ε γ) :
    (m >>= f >>= g) = (m >>= fun a => f a >>= g) := by
  show Exec.bind (Exec.bind m f) g = Exec.bind m fun a => Exec.bind (f a) g
  unfold Exec.bind
  rcases h : m.result with a | _ | _
  · simp only []
    rcases h2 : (f a).result with b | _ | _ <;> simp
  · simp
  · simp

theorem emit_bind {ε β : Type} (e : ε) (f : Unit → Exec ε β) :
    (emit e >>= f) = ⟨e :: (f ()).trace, (f ()).result⟩ := by
  show Exec.bind ⟨[e], Res.ok ()⟩ f = _
  simp [Exec.bind]

theorem trace_emit_bind {ε β : Type} (e : ε) (f : Unit → Exec ε β) :
    (emit e >>= f).trace = e :: (f ()).trace := by
  rw [emit_bind]

end Exec

namespace ControllerManager

end ControllerManager
end Meridio

namespace Meridio

namespace ControllerManager

set_option maxHeartbeats 1000000 in
/-- When the manager is started, the three controllers have been registered. -/
theorem setups_before_start (GetIPs : GetIPsFunc) (env : Env AnyController) (ro : runOptions)
    (h : Event.mgrStart ∈ (run GetIPs env ro).trace) :
    ∃ m, Event.setupWithManager (gatewayOf m ro) ∈ (run GetIPs env ro).trace ∧
      Event.setupWithManager (endpointsliceOf GetIPs m ro) ∈ (run GetIPs env ro).trace ∧
      Event.setupWithManager (podnetworkannotatorOf GetIPs m ro) ∈
        (run GetIPs env ro).trace := by
  rcases hmgr : (env.newManager (managerOptions ["clientgoscheme", "v1alpha1", "gatewayapiv1"])).1
    with _ | m
  · simp [run, and_assoc, hmgr] at h
  · refine ⟨m, ?_⟩
    simp only [gatewayOf, endpointsliceOf, podnetworkannotatorOf]
    simp [run, and_assoc, hmgr] at h
    obtain ⟨h1, h2, h3, h4, h5, h6, h7, h8, h9⟩ := h
    refine ⟨?_, ?_, ?_⟩
    · simp [run, and_assoc, hmgr, h1, h2, h3, h4, h5]
    · simp [run, and_assoc, hmgr, h1, h2, h3, h4, h5, h6]
    · simp [run, and_assoc, hmgr, h1, h2, h3, h4, h5, h6, h7]

/-- The trace of `run` in the environment where every call succeeds. -/
theorem run_okEnv (GetIPs : GetIPsFunc) (ro : runOptions) :
    (run GetIPs okEnv ro).trace =
      [Event.addToScheme "clientgoscheme", Event.addToScheme "v1alpha1",
        Event.addToScheme "gatewayapiv1", Event.logNew "controller-manager" ro.LogLevel,
        Event.setLogger, Event.getConfigOrDie, Event.newManager (managerOptions registered),
        Event.setupWithManager (gatewayOf ⟨1, registered⟩ ro),
        Event.setupWithManager (endpointsliceOf GetIPs ⟨1, registered⟩ ro),
        Event.setupWithManager (podnetworkannotatorOf GetIPs ⟨1, registered⟩ ro),
        Event.addHealthzCheck "healthz", Event.addReadyzCheck "readyz", Event.mgrStart] :=
  run_ok GetIPs okEnv ro ⟨1, registered⟩ rfl rfl rfl rfl rfl rfl rfl rfl rfl rfl rfl

/-- C1: whatever the `--gateway-class-name` flag, controller-manager `run` registers
exactly its three controllers, each carrying as `GatewayClassName` the value of the flag
(the empty string when the flag is not given): after a successful start-up and with a
manager at hand it registers the Gateway controller, then, the check of that
registration passed, the EndpointSlice controller, then likewise the
PodNetworkAnnotator controller; it registers nothing else, so no registered controller
has another class name, and when the manager is started all three are registered. -/
theorem controllerManager_single_gatewayClassName (GetIPs : GetIPsFunc)
    (env : Env AnyController) (flags : Flags) :
    (newCmdRun flags).gatewayClassName = flags.gatewayClassName.getD "" ∧
    (∀ c, Event.setupWithManager c ∈ (run GetIPs env (newCmdRun flags)).trace ↔
      startsUp env = true ∧
      passes env (env.newManager (managerOptions registered)).2 = true ∧
      ∃ m, (env.newManager (managerOptions registered)).1 = some m ∧
        (c = AnyController.gateway
            { Client := m.client, Scheme := m.scheme
              GatewayClassName := flags.gatewayClassName.getD "" } ∨
          passes env (env.setupWithManager (gatewayOf m (newCmdRun flags))) = true ∧
            (c = AnyController.endpointslice
                { Client := m.client, Scheme := m.scheme
                  GatewayClassName := flags.gatewayClassName.getD ""
                  ServiceReconciler :=
                    { Client := m.client
                      EndpointSliceReconciler :=
                        { Client := m.client, Scheme := m.scheme, GetIPsFunc := GetIPs } } } ∨
              passes env
                  (env.setupWithManager (endpointsliceOf GetIPs m (newCmdRun flags))) = true ∧
                c = AnyController.podnetworkannotator
                  { Client := m.client, Scheme := m.scheme
                    GatewayClassName := flags.gatewayClassName.getD ""
                    GetIPsFunc := GetIPs
                    NetworkAnnotator := { MinTableID := 50000, MaxTableID := 55000 } }))) ∧
    (∀ c, Event.setupWithManager c ∈ (run GetIPs env (newCmdRun flags)).trace →
      c.GatewayClassName = flags.gatewayClassName.getD "") ∧
    (Event.mgrStart ∈ (run GetIPs env (newCmdRun flags)).trace →
      ∃ g e p,
        Event.setupWithManager (AnyController.gateway g) ∈
          (run GetIPs env (newCmdRun flags)).trace ∧
        Event.setupWithManager (AnyController.endpointslice e) ∈
          (run GetIPs env (newCmdRun flags)).trace ∧
        Event.setupWithManager (AnyController.podnetworkannotator p) ∈
          (run GetIPs env (newCmdRun flags)).trace) := by
  have hflag : (newCmdRun flags).gatewayClassName = flags.gatewayClassName.getD "" := by
    cases h : flags.gatewayClassName <;> simp [newCmdRun, StringVar, h]
  refine ⟨hflag, ?_, ?_, ?_⟩
  · intro c
    rw [setup_mem_iff]
    simp only [gatewayOf, endpointsliceOf, podnetworkannotatorOf, hflag]
  · intro c hc
    obtain ⟨m, -, h | h | h⟩ := mem_trace_run_setup GetIPs env _ c hc
    all_goals rw [h, ← hflag]; rfl
  · intro h
    obtain ⟨m, h1, h2, h3⟩ := setups_before_start GetIPs env _ h
    exact ⟨_, _, _, h1, h2, h3⟩

/-- C1 at a concrete input: with `--gateway-class-name meridio` and every call
succeeding, `run` registers the three controllers, each with class `meridio`. -/
theorem controllerManager_single_gatewayClassName_witness :
    Event.setupWithManager
        (AnyController.gateway
          { Client := 1, Scheme := registered, GatewayClassName := "meridio" }) ∈
      (run sampleGetIPs okEnv (newCmdRun ⟨"info", some "meridio"⟩)).trace ∧
    Event.setupWithManager (AnyController.endpointslice sampleEndpointSlice) ∈
      (run sampleGetIPs okEnv (newCmdRun ⟨"info", some "meridio"⟩)).trace ∧
    Event.setupWithManager (AnyController.podnetworkannotator samplePodNetworkAnnotator) ∈
      (run sampleGetIPs okEnv (newCmdRun ⟨"info", some "meridio"⟩)).trace ∧
    samplePodNetworkAnnotator.GatewayClassName = "meridio" :=
  have h := controllerManager_single_gatewayClassName sampleGetIPs okEnv
    ⟨"info", some "meridio"⟩
  ⟨(h.2.1 _).mpr ⟨rfl, rfl, ⟨1, registered⟩, rfl, Or.inl rfl⟩,
    (h.2.1 _).mpr ⟨rfl, rfl, ⟨1, registered⟩, rfl, Or.inr ⟨rfl, Or.inl rfl⟩⟩,
    (h.2.1 _).mpr ⟨rfl, rfl, ⟨1, registered⟩, rfl, Or.inr ⟨rfl, Or.inr ⟨rfl, rfl⟩⟩⟩,
    h.2.2.1 (AnyController.podnetworkannotator samplePodNetworkAnnotator)
      ((h.2.1 _).mpr ⟨rfl, rfl, ⟨1, registered⟩, rfl, Or.inr ⟨rfl, Or.inr ⟨rfl, rfl⟩⟩⟩)⟩

/-- C3: controller-manager `run` wires the EndpointSlice reconciler nested in the
Service reconciler and the PodNetworkAnnotator controller with the same `GetIPsFunc`,
the function `networkattachment.GetIPs`: the EndpointSlice controller it registers (after
a successful start-up, with a manager at hand and the checks before it passed) is the
one whose nested reconciler holds `GetIPs`, the PodNetworkAnnotator controller it
registers is the one holding `GetIPs`, and so the two resolve every pod alike. -/
theorem controllerManager_same_GetIPs (GetIPs : GetIPsFunc) (env : Env AnyController)
    (ro : runOptions) :
    (∀ ce, Event.setupWithManager (AnyController.endpointslice ce) ∈
        (run GetIPs env ro).trace ↔
      startsUp env = true ∧
      passes env (env.newManager (managerOptions registered)).2 = true ∧
      ∃ m, (env.newManager (managerOptions registered)).1 = some m ∧
        passes env (env.setupWithManager (gatewayOf m ro)) = true ∧
        ce = { Client := m.client, Scheme := m.scheme
               GatewayClassName := ro.gatewayClassName
               ServiceReconciler :=
                 { Client := m.client
                   EndpointSliceReconciler :=
                     { Client := m.client, Scheme := m.scheme, GetIPsFunc := GetIPs } } }) ∧
    (∀ cp, Event.setupWithManager (AnyController.podnetworkannotator cp) ∈
        (run GetIPs env ro).trace ↔
      startsUp env = true ∧
      passes env (env.newManager (managerOptions registered)).2 = true ∧
      ∃ m, (env.newManager (managerOptions registered)).1 = some m ∧
        passes env (env.setupWithManager (gatewayOf m ro)) = true ∧
        passes env (env.setupWithManager (endpointsliceOf GetIPs m ro)) = true ∧
        cp = { Client := m.client, Scheme := m.scheme
               GatewayClassName := ro.gatewayClassName
               GetIPsFunc := GetIPs
               NetworkAnnotator := { MinTableID := 50000, MaxTableID := 55000 } }) ∧
    (∀ ce cp,
      Event.setupWithManager (AnyController.endpointslice ce) ∈ (run GetIPs env ro).trace →
      Event.setupWithManager (AnyController.podnetworkannotator cp) ∈
        (run GetIPs env ro).trace →
      ∀ pod : Pod,
        ce.ServiceReconciler.EndpointSliceReconciler.GetIPsFunc pod = cp.GetIPsFunc pod ∧
        cp.GetIPsFunc pod = GetIPs pod) := by
  have hes : ∀ ce, Event.setupWithManager (AnyController.endpointslice ce) ∈
        (run GetIPs env ro).trace ↔
      startsUp env = true ∧
      passes env (env.newManager (managerOptions registered)).2 = true ∧
      ∃ m, (env.newManager (managerOptions registered)).1 = some m ∧
        passes env (env.setupWithManager (gatewayOf m ro)) = true ∧
        ce = { Client := m.client, Scheme := m.scheme
               GatewayClassName := ro.gatewayClassName
               ServiceReconciler :=
                 { Client := m.client
                   EndpointSliceReconciler :=
                     { Client := m.client, Scheme := m.scheme, GetIPsFunc := GetIPs } } } := by
    intro ce
    rw [setup_mem_iff]
    simp [gatewayOf, endpointsliceOf, podnetworkannotatorOf]
  have hpna : ∀ cp, Event.setupWithManager (AnyController.podnetworkannotator cp) ∈
        (run GetIPs env ro).trace ↔
      startsUp env = true ∧
      passes env (env.newManager (managerOptions registered)).2 = true ∧
      ∃ m, (env.newManager (managerOptions registered)).1 = some m ∧
        passes env (env.setupWithManager (gatewayOf m ro)) = true ∧
        passes env (env.setupWithManager (endpointsliceOf GetIPs m ro)) = true ∧
        cp = { Client := m.client, Scheme := m.scheme
               GatewayClassName := ro.gatewayClassName
               GetIPsFunc := GetIPs
               NetworkAnnotator := { MinTableID := 50000, MaxTableID := 55000 } } := by
    intro cp
    rw [setup_mem_iff]
    simp [gatewayOf, endpointsliceOf, podnetworkannotatorOf]
  refine ⟨hes, hpna, ?_⟩
  intro ce cp he hp pod
  obtain ⟨-, -, m, -, -, h⟩ := (hes ce).mp he
  obtain ⟨-, -, m2, -, -, -, h2⟩ := (hpna cp).mp hp
  rw [h, h2]
  exact ⟨rfl, rfl⟩

/-- C3 at a concrete input: when every call succeeds, `run` registers the two
controllers holding `sampleGetIPs`, and both resolve pod `p` to the same addresses. -/
theorem controllerManager_same_GetIPs_witness :
    Event.setupWithManager (AnyController.endpointslice sampleEndpointSlice) ∈
      (run sampleGetIPs okEnv sampleOptions).trace ∧
    Event.setupWithManager (AnyController.podnetworkannotator samplePodNetworkAnnotator) ∈
      (run sampleGetIPs okEnv sampleOptions).trace ∧
    sampleEndpointSlice.ServiceReconciler.EndpointSliceReconciler.GetIPsFunc "p" =
      samplePodNetworkAnnotator.GetIPsFunc "p" ∧
    samplePodNetworkAnnotator.GetIPsFunc "p" = sampleGetIPs "p" :=
  have h := controllerManager_same_GetIPs sampleGetIPs okEnv sampleOptions
  have he := (h.1 sampleEndpointSlice).mpr ⟨rfl, rfl, ⟨1, registered⟩, rfl, rfl, rfl⟩
  have hp := (h.2.1 samplePodNetworkAnnotator).mpr
    ⟨rfl, rfl, ⟨1, registered⟩, rfl, rfl, rfl, rfl⟩
  ⟨he, hp, h.2.2 sampleEndpointSlice samplePodNetworkAnnotator he hp "p"⟩

end ControllerManager

end Meridio

namespace Meridio

namespace ControllerManager

/-- C9: with a `log.Fatal` that does not return, controller-manager `run` reaches
`mgr.Start` only if manager creation, the three `SetupWithManager` calls (Gateway,
EndpointSlice, PodNetworkAnnotator, made in that order) and both health-check
registrations returned no error; and a checked call that returns an error is the last
call made: only its `log.Fatal` follows, the process exits, and unless the failed call
is `mgr.Start` itself the manager is never started. -/
theorem controllerManager_start_only_after_steps (GetIPs : GetIPsFunc)
    (env : Env AnyController) (ro : runOptions) (hfatal : env.fatalReturns = false) :
    (Event.mgrStart ∈ (run GetIPs env ro).trace →
      ∃ m, env.newManager (managerOptions registered) = (some m, none) ∧
        env.setupWithManager (gatewayOf m ro) = none ∧
        env.setupWithManager (endpointsliceOf GetIPs m ro) = none ∧
        env.setupWithManager (podnetworkannotatorOf GetIPs m ro) = none ∧
        env.addHealthzCheck = none ∧ env.addReadyzCheck = none ∧
        ∃ tail, (run GetIPs env ro).trace =
          firstCalls ro ++
            [Event.newManager (managerOptions registered),
              Event.setupWithManager (gatewayOf m ro),
              Event.setupWithManager (endpointsliceOf GetIPs m ro),
              Event.setupWithManager (podnetworkannotatorOf GetIPs m ro),
              Event.addHealthzCheck "healthz", Event.addReadyzCheck "readyz",
              Event.mgrStart] ++ tail) ∧
    (∀ ev x, ev ∈ (run GetIPs env ro).trace → response env ev = some x →
      (run GetIPs env ro).result = Res.exited ∧
      (∃ l msg kv, (run GetIPs env ro).trace = l ++ [ev, Event.fatal msg x kv]) ∧
      (ev ≠ Event.mgrStart → Event.mgrStart ∉ (run GetIPs env ro).trace)) := by
  refine ⟨?_, ?_⟩
  · intro h
    obtain ⟨m, h1, h2, h3, h4, h5, h6, tail, ht, -⟩ := start_reached GetIPs env ro hfatal h
    exact ⟨m, h1, h2, h3, h4, h5, h6, tail, by simpa [checkedCalls] using ht⟩
  · intro ev x hev hx
    obtain ⟨hr, hl⟩ := failed_call_is_last GetIPs env ro hfatal ev x hev hx
    refine ⟨hr, hl, ?_⟩
    intro hne hstart
    obtain ⟨m, h1, h2, h3, h4, h5, h6, tail, ht, htail⟩ :=
      start_reached GetIPs env ro hfatal hstart
    rw [ht] at hev
    simp only [firstCalls, checkedCalls, List.mem_append, List.mem_cons, List.map_cons,
      List.map_nil, List.mem_singleton, List.not_mem_nil, or_false] at hev
    have hnone : response env ev = none := by
      rcases hev with ((h | h | h | h | h | h) | (h | h | h | h | h | h | h)) | h
      any_goals (rw [h]; rfl)
      · rw [h]
        show (env.newManager (managerOptions registered)).2 = none
        rw [h1]
      · rw [h]
        exact h2
      · rw [h]
        exact h3
      · rw [h]
        exact h4
      · rw [h]
        exact h5
      · rw [h]
        exact h6
      · exact absurd h hne
      · exact htail ev h
    rw [hnone] at hx
    cases hx

/-- C9 at a concrete input: when registering the EndpointSlice controller fails, the
process exits and the manager is never started. -/
theorem controllerManager_start_only_after_steps_witness :
    (run sampleGetIPs endpointSliceFailsEnv sampleOptions).result = Res.exited ∧
    Event.mgrStart ∉ (run sampleGetIPs endpointSliceFailsEnv sampleOptions).trace :=
  have h := (controllerManager_start_only_after_steps sampleGetIPs endpointSliceFailsEnv
      sampleOptions rfl).2
    (Event.setupWithManager (AnyController.endpointslice sampleEndpointSlice))
    "no kind registered"
    (by
      simp [run, Must, GetConfigOrDie, Fatal, ifErr, GetClient, GetScheme, onManager, bind,
        Exec.bind, Exec.emit, Exec.exit, pure, okEnv, endpointSliceFailsEnv,
        sampleEndpointSlice, sampleOptions, registered, managerOptions])
    rfl
  ⟨h.1, h.2.2 (by simp)⟩

end ControllerManager

end Meridio

namespace Meridio

namespace Router

/-- Every controller the router's `run` registers is its `router.Controller` literal,
built from the manager that `ctrl.NewManager` returned. -/
theorem router_mem_trace_run_setup (env : Env) (ro : runOptions) (c : router.Controller)
    (h : Event.setupWithManager c ∈ (run env ro).trace) :
    ∃ m : Manager, (env.newManager (managerOptions registered)).1 = some m ∧
      c = { Client := m.client, Scheme := m.scheme, RoutingSuiteInstance := env.bird
            Name := ro.name, Namespace := ro.namespace_ } := by
  rcases hmgr : (env.newManager (managerOptions registered)).1 with _ | m
  · simp only [registered] at hmgr
    simp [run, and_assoc, hmgr] at h
  · refine ⟨m, rfl, ?_⟩
    simp only [registered] at hmgr
    simp [run, and_assoc, hmgr] at h
    exact h.2.2.2.2.2

/-- The goroutine executing `run` never calls `birdInstance.Run` itself. -/
theorem birdRun_not_mem_run (env : Env) (ro : runOptions) :
    Event.birdRun ∉ (run env ro).trace := by
  simp [run]

/-- When the manager is started, the router controller has been registered. -/
theorem setup_before_start (env : Env) (ro : runOptions)
    (h : Event.mgrStart ∈ (run env ro).trace) :
    ∃ c, Event.setupWithManager c ∈ (run env ro).trace := by
  rcases hmgr : (env.newManager (managerOptions ["clientgoscheme", "v1alpha1", "gatewayapiv1"])).1
    with _ | m
  · simp [run, and_assoc, hmgr] at h
  · simp [run, and_assoc, hmgr] at h
    obtain ⟨h1, h2, h3, h4, h5, h6⟩ := h
    exact ⟨{ Client := m.client, Scheme := m.scheme, RoutingSuiteInstance := env.bird
             Name := ro.name, Namespace := ro.namespace_ },
      by simp [run, and_assoc, hmgr, h1, h2, h3, h4, h5]⟩

/-- When every call succeeds, the router's `run` makes exactly these calls. -/
theorem router_run_ok (env : Env) (ro : runOptions) (m : Manager)
    (h1 : env.addClientGoScheme = none) (h2 : env.addV1alpha1 = none)
    (h3 : env.installGatewayAPI = none) (h4 : env.getConfig = none)
    (h5 : env.newManager (managerOptions registered) = (some m, none))
    (h6 : env.setupWithManager
      { Client := m.client, Scheme := m.scheme, RoutingSuiteInstance := env.bird
        Name := ro.name, Namespace := ro.namespace_ } = none)
    (h7 : env.addHealthzCheck = none) (h8 : env.addReadyzCheck = none)
    (h9 : env.mgrStart = none) :
    (run env ro).trace =
      [Event.addToScheme "clientgoscheme", Event.addToScheme "v1alpha1",
        Event.addToScheme "gatewayapiv1", Event.logNew "Router" ro.LogLevel,
        Event.setLogger, Event.getConfigOrDie, Event.newManager (managerOptions registered),
        Event.birdNew, Event.goBird,
        Event.setupWithManager
          { Client := m.client, Scheme := m.scheme, RoutingSuiteInstance := env.bird
            Name := ro.name, Namespace := ro.namespace_ },
        Event.addHealthzCheck "healthz", Event.addReadyzCheck "readyz", Event.mgrStart] := by
  simp only [registered] at h5 ⊢
  simp [run, Must, GetConfigOrDie, Fatal, ifErr, GetClient, GetScheme, onManager, bind,
    Exec.bind, Exec.emit, pure, h1, h2, h3, h4, h5, h6, h7, h8, h9]

/-- The bird goroutine never ends the process. -/
theorem birdTask_result (env : Env) : (birdTask env).result = Res.ok () := by
  rcases h : env.birdRun with _ | _ | e <;>
    simp [birdTask, ifErr, bind, Exec.bind, Exec.emit, pure, h]

/-- The calls of the bird goroutine: `Run`, its return, and the logging of its error. -/
theorem birdTask_trace (env : Env) :
    (birdTask env).trace =
      match env.birdRun with
      | none => [Event.birdRun]
      | some none => [Event.birdRun, Event.birdRunReturned none]
      | some (some e) =>
        [Event.birdRun, Event.birdRunReturned (some e),
          Event.logError e "failed to start bird"] := by
  rcases h : env.birdRun with _ | _ | e <;>
    simp [birdTask, ifErr, bind, Exec.bind, Exec.emit, pure, h]

/-- As long as the bird goroutine does not end the process, the goroutine executing
`run` makes its calls exactly as scheduled. -/
theorem eventsOf_main_interleave (sched : List Bool) :
    ∀ (spawned : Bool) (main task : List (Event router.Controller)),
      eventsOf Thread.main (interleave spawned sched main task (Res.ok ())) =
        main.take (sched.count true) := by
  induction sched with
  | nil => intro spawned main task; simp [interleave, eventsOf]
  | cons b s ih =>
    intro spawned main task
    cases b
    · cases spawned
      · simpa [interleave] using ih false main task
      · cases task with
        | nil => simpa [interleave] using ih true main []
        | cons t ts =>
          have := ih true main ts
          simp only [eventsOf] at this
          simp [interleave, eventsOf, this]
    · cases main with
      | nil => simp [interleave, eventsOf]
      | cons m ms =>
        have := ih (spawned || decide (m = Event.goBird)) ms task
        simp only [eventsOf] at this
        simp [interleave, eventsOf, this]

/-- The bird goroutine makes no call that is not in its body. -/
theorem count_bird_interleave (x : Event router.Controller) (sched : List Bool) :
    ∀ (spawned : Bool) (main task : List (Event router.Controller)) (r : Res Unit),
      (interleave spawned sched main task r).count (Thread.bird, x) ≤ task.count x := by
  induction sched with
  | nil => intro spawned main task r; simp [interleave]
  | cons b s ih =>
    intro spawned main task r
    cases b
    · cases spawned
      · simpa [interleave] using ih false main task r
      · cases task with
        | nil =>
          cases r with
          | ok u => simpa [interleave] using ih true main [] (Res.ok ())
          | exited => simp [interleave]
          | panicked => simp [interleave]
        | cons t ts =>
          have := ih true main ts r
          by_cases hx : t = x
          · subst hx
            simp [interleave, this]
          · have h2 : (Thread.bird, x) ≠ (Thread.bird, t) := by
              simp [Ne.symm hx]
            simp only [interleave]
            rw [List.count_cons_of_ne h2, List.count_cons_of_ne (Ne.symm hx)]
            exact this
    · cases main with
      | nil => simp [interleave]
      | cons m ms =>
        have := ih (spawned || decide (m = Event.goBird)) ms task r
        simp only [interleave]
        rw [List.count_cons_of_ne (by simp)]
        exact this

end Router

end Meridio
namespace Meridio

namespace Router

/-- The bird goroutine steps only after the `go` statement of `run`. -/
theorem bird_mem_interleave (t : Event router.Controller) (sched : List Bool) :
    ∀ (spawned : Bool) (main task : List (Event router.Controller)) (r : Res Unit),
      (Thread.bird, t) ∈ interleave spawned sched main task r →
        spawned = true ∨ Event.goBird ∈ main := by
  induction sched with
  | nil => intro spawned main task r h; simp [interleave] at h
  | cons b s ih =>
    intro spawned main task r h
    cases b
    · cases spawned
      · simp only [interleave] at h
        exact ih false main task r h
      · exact Or.inl rfl
    · cases main with
      | nil => simp [interleave] at h
      | cons m ms =>
        simp only [interleave, List.mem_cons, Prod.mk.injEq, reduceCtorEq, false_and,
          false_or] at h
        rcases ih _ ms task r h with h2 | h2
        · simp only [Bool.or_eq_true, decide_eq_true_eq] at h2
          rcases h2 with h2 | h2
          · exact Or.inl h2
          · exact Or.inr (h2 ▸ List.mem_cons_self _ _)
        · exact Or.inr (List.mem_cons_of_mem _ h2)

/-- Once `run` has executed its `go` statement and is still executing, the next step
of the bird goroutine makes the first call of its body, if it has not yet. -/
theorem bird_first_call (t : Event router.Controller) (ts : List (Event router.Controller))
    (s2 : List Bool) (s1 : List Bool) :
    ∀ (spawned : Bool) (main : List (Event router.Controller)),
      s1.count true ≤ main.length →
      (spawned = true ∨ Event.goBird ∈ main.take (s1.count true)) →
      (Thread.bird, t) ∈ interleave spawned (s1 ++ false :: s2) main (t :: ts) (Res.ok ()) := by
  induction s1 with
  | nil =>
    intro spawned main _ h
    have hs : spawned = true := by simpa using h
    subst hs
    simp [interleave]
  | cons b s ih =>
    intro spawned main hlen h
    cases b
    · cases spawned
      · simp only [List.cons_append, interleave]
        refine ih false main ?_ ?_
        · simpa using hlen
        · simpa using h
      · simp [interleave]
    · cases main with
      | nil => simp at hlen
      | cons m ms =>
        simp only [List.cons_append, interleave, List.mem_cons, Prod.mk.injEq, reduceCtorEq,
          false_and, false_or]
        refine ih _ ms ?_ ?_
        · simpa using hlen
        · simp only [List.count_cons_self, List.take_succ_cons, List.mem_cons] at h
          simp only [Bool.or_eq_true, decide_eq_true_eq]
          rcases h with h | h | h
          · exact Or.inl (Or.inl h)
          · exact Or.inl (Or.inr h.symm)
          · exact Or.inr h

/-- Under a schedule that lets `run` finish, the calls of the goroutine executing `run`
in the process trace are the calls of `run`. -/
theorem main_mem_processTrace (env : Env) (ro : runOptions) (sched : List Bool)
    (hfair : (run env ro).trace.length ≤ sched.count true) (ev : Event router.Controller) :
    (Thread.main, ev) ∈ processTrace env ro sched ↔ ev ∈ (run env ro).trace := by
  have hmain : eventsOf Thread.main (processTrace env ro sched) = (run env ro).trace := by
    unfold processTrace
    rw [birdTask_result, eventsOf_main_interleave, List.take_of_length_le hfair]
  rw [← hmain]
  simp [eventsOf]

end Router
end Meridio
namespace Meridio

theorem ifErr_none {κ : Type} (body : GoError → Exec (Event κ) Unit) :
    ifErr none body = pure () :=
  rfl

theorem ifErr_some {κ : Type} (e : GoError) (body : GoError → Exec (Event κ) Unit) :
    ifErr (some e) body = body e :=
  rfl

namespace Router

/-- The router's `run` executes its `go` statement at most once. -/
theorem router_goBird_count (env : Env) (ro : runOptions) :
    (run env ro).trace.count Event.goBird ≤ 1 := by
  by_cases hgo : Event.goBird ∈ (run env ro).trace
  swap
  · rw [List.count_eq_zero_of_not_mem hgo]
    exact Nat.zero_le 1
  obtain ⟨hs, hp⟩ := (router_goBird_mem_iff env ro).mp hgo
  obtain ⟨e1, e2, e3, e4⟩ := (startsUp_eq_true env.toEnv).mp hs
  have key : ∃ (l : List (Event router.Controller)) (post : Exec (Event router.Controller) Unit),
      Event.goBird ∉ l ∧ (run env ro).trace = l ++ Event.goBird :: post.trace ∧
      Event.goBird ∉ post.trace := by
    generalize hT : (run env ro).trace = T
    rcases hr : (env.newManager (managerOptions registered)).2 with _ | x
    · simp only [registered] at hr
      simp only [run, Must, GetConfigOrDie, ifErr_none, registered, e1, e2, e3, e4, hr,
        List.nil_append, List.cons_append, Exec.pure_bind, Exec.bind_assoc] at hT
      iterate 9 rw [Exec.trace_emit_bind] at hT
      subst hT
      exact ⟨[Event.addToScheme "clientgoscheme", Event.addToScheme "v1alpha1",
          Event.addToScheme "gatewayapiv1", Event.logNew "Router" ro.LogLevel,
          Event.setLogger, Event.getConfigOrDie, Event.newManager (managerOptions registered),
          Event.birdNew], _, by simp, rfl, by simp⟩
    · have hf : env.fatalReturns = true := by simpa [hr] using hp
      simp only [registered] at hr
      simp only [run, Must, GetConfigOrDie, ifErr_some, Fatal, registered, e1, e2, e3, e4, hr, hf,
        if_true, List.nil_append, List.cons_append, Exec.pure_bind, Exec.bind_assoc] at hT
      iterate 10 rw [Exec.trace_emit_bind] at hT
      subst hT
      exact ⟨[Event.addToScheme "clientgoscheme", Event.addToScheme "v1alpha1",
          Event.addToScheme "gatewayapiv1", Event.logNew "Router" ro.LogLevel,
          Event.setLogger, Event.getConfigOrDie, Event.newManager (managerOptions registered),
          Event.fatal "failed to create manager for controllers" x [],
          Event.birdNew], _, by simp, rfl, by simp⟩
  obtain ⟨l, post, hl, htrace, hpost⟩ := key
  rw [htrace, List.count_append, List.count_eq_zero_of_not_mem hl, List.count_cons_self,
    List.count_eq_zero_of_not_mem hpost]

end Router
end Meridio

namespace Meridio

namespace Router

/-- C8: the router controller is bound to the Gateway named by the options: whatever
the flags, after a successful start-up and with a manager at hand the router's `run`
registers the `router.Controller` whose `Name` is the `--name` flag (the empty string
when not given) and whose `Namespace` is the `--namespace` flag (`default` when not
given), and it registers no other controller; when the manager is started the
controller has been registered. -/
theorem router_controller_name_namespace (env : Env) (flags : Flags) :
    (newCmdRun flags).name = flags.name.getD "" ∧
    (newCmdRun flags).namespace_ = flags.namespace_.getD "default" ∧
    (∀ c, Event.setupWithManager c ∈ (run env (newCmdRun flags)).trace ↔
      startsUp env.toEnv = true ∧
      passes env.toEnv (env.newManager (managerOptions registered)).2 = true ∧
      ∃ m, (env.newManager (managerOptions registered)).1 = some m ∧
        c = { Client := m.client, Scheme := m.scheme, RoutingSuiteInstance := env.bird
              Name := flags.name.getD "", Namespace := flags.namespace_.getD "default" }) ∧
    (∀ c, Event.setupWithManager c ∈ (run env (newCmdRun flags)).trace →
      c.Name = flags.name.getD "" ∧ c.Namespace = flags.namespace_.getD "default") ∧
    (∀ c d, Event.setupWithManager c ∈ (run env (newCmdRun flags)).trace →
      Event.setupWithManager d ∈ (run env (newCmdRun flags)).trace → c = d) ∧
    (Event.mgrStart ∈ (run env (newCmdRun flags)).trace →
      ∃ c, Event.setupWithManager c ∈ (run env (newCmdRun flags)).trace) := by
  have hname : (newCmdRun flags).name = flags.name.getD "" := by
    cases hn : flags.name <;> simp [newCmdRun, StringVar, hn]
  have hns : (newCmdRun flags).namespace_ = flags.namespace_.getD "default" := by
    cases hn : flags.namespace_ <;> simp [newCmdRun, StringVar, hn]
  have hiff : ∀ c, Event.setupWithManager c ∈ (run env (newCmdRun flags)).trace ↔
      startsUp env.toEnv = true ∧
      passes env.toEnv (env.newManager (managerOptions registered)).2 = true ∧
      ∃ m, (env.newManager (managerOptions registered)).1 = some m ∧
        c = { Client := m.client, Scheme := m.scheme, RoutingSuiteInstance := env.bird
              Name := flags.name.getD "", Namespace := flags.namespace_.getD "default" } := by
    intro c
    rw [router_setup_mem_iff, hname, hns]
  refine ⟨hname, hns, hiff, ?_, ?_, setup_before_start env _⟩
  · intro c hc
    obtain ⟨-, -, m, -, h⟩ := (hiff c).mp hc
    rw [h]
    exact ⟨rfl, rfl⟩
  · intro c d hc hd
    obtain ⟨-, -, m, hm, h⟩ := (hiff c).mp hc
    obtain ⟨-, -, m2, hm2, h2⟩ := (hiff d).mp hd
    rw [hm] at hm2
    cases hm2
    rw [h, h2]

/-- C8 at a concrete input: with `--name gw-a` and no `--namespace`, `run` registers
the controller bound to `default/gw-a`. -/
theorem router_controller_name_namespace_witness :
    Event.setupWithManager sampleController ∈
      (run failingBirdEnv (newCmdRun ⟨"info", some "gw-a", none⟩)).trace ∧
    sampleController.Name = "gw-a" ∧ sampleController.Namespace = "default" :=
  have h := router_controller_name_namespace failingBirdEnv ⟨"info", some "gw-a", none⟩
  have hmem := (h.2.2.1 sampleController).mpr ⟨rfl, rfl, ⟨1, registered⟩, rfl, rfl⟩
  ⟨hmem, h.2.2.2.1 sampleController hmem⟩

/-- C4: in the router's `run`, an error returned by `birdInstance.Run` is only logged:
the bird goroutine makes the `setupLog.Error` call and ends without ending the process;
`run` behaves as with a daemon that never fails and makes its calls exactly as
scheduled; so under any schedule that lets `run` finish, every call of `run` is made,
and the router controller is registered and the manager started exactly when the calls
of `run` itself allow it (start-up succeeded, a manager at hand, the checks before
passed), whatever the daemon's error. -/
theorem router_bird_failure_only_logged (env : Env) (ro : runOptions) (e : GoError)
    (sched : List Bool) (hbird : env.birdRun = some (some e)) :
    (birdTask env).trace =
      [Event.birdRun, Event.birdRunReturned (some e),
        Event.logError e "failed to start bird"] ∧
    (birdTask env).result = Res.ok () ∧
    run env ro = run { env with birdRun := none } ro ∧
    eventsOf Thread.main (processTrace env ro sched) =
      (run env ro).trace.take (sched.count true) ∧
    ((run env ro).trace.length ≤ sched.count true →
      (∀ ev ∈ (run env ro).trace, (Thread.main, ev) ∈ processTrace env ro sched) ∧
      (∀ c, (Thread.main, Event.setupWithManager c) ∈ processTrace env ro sched ↔
        startsUp env.toEnv = true ∧
        passes env.toEnv (env.newManager (managerOptions registered)).2 = true ∧
        ∃ m, (env.newManager (managerOptions registered)).1 = some m ∧
          c = { Client := m.client, Scheme := m.scheme, RoutingSuiteInstance := env.bird
                Name := ro.name, Namespace := ro.namespace_ }) ∧
      ((Thread.main, Event.mgrStart) ∈ processTrace env ro sched ↔
        startsUp env.toEnv = true ∧
        passes env.toEnv (env.newManager (managerOptions registered)).2 = true ∧
        ∃ m, (env.newManager (managerOptions registered)).1 = some m ∧
          passes env.toEnv (env.setupWithManager
            { Client := m.client, Scheme := m.scheme, RoutingSuiteInstance := env.bird
              Name := ro.name, Namespace := ro.namespace_ }) = true ∧
          passes env.toEnv env.addHealthzCheck = true ∧
          passes env.toEnv env.addReadyzCheck = true)) := by
  have hmain : eventsOf Thread.main (processTrace env ro sched) =
      (run env ro).trace.take (sched.count true) := by
    unfold processTrace
    rw [birdTask_result]
    exact eventsOf_main_interleave sched false _ _
  refine ⟨?_, birdTask_result env, rfl, hmain, ?_⟩
  · rw [birdTask_trace, hbird]
  · intro hlen
    refine ⟨?_, ?_, ?_⟩
    · intro ev hev
      exact (main_mem_processTrace env ro sched hlen ev).mpr hev
    · intro c
      rw [main_mem_processTrace env ro sched hlen, router_setup_mem_iff]
    · rw [main_mem_processTrace env ro sched hlen, router_start_mem_iff]

/-- C4 at a concrete input: the daemon fails right after the `go` statement, its error
is logged, and the router controller is registered and the manager started all the
same. -/
theorem router_bird_failure_only_logged_witness :
    (Thread.bird, Event.logError "bird: exit status 1" "failed to start bird") ∈
      processTrace failingBirdEnv sampleOptions sampleSchedule ∧
    (Thread.main, Event.setupWithManager sampleController) ∈
      processTrace failingBirdEnv sampleOptions sampleSchedule ∧
    (Thread.main, Event.mgrStart) ∈
      processTrace failingBirdEnv sampleOptions sampleSchedule :=
  have h := (router_bird_failure_only_logged failingBirdEnv sampleOptions
    "bird: exit status 1" sampleSchedule rfl).2.2.2.2 (by decide)
  ⟨by decide, (h.2.1 sampleController).mpr ⟨rfl, rfl, ⟨1, registered⟩, rfl, rfl⟩,
    h.2.2.mpr ⟨rfl, rfl, ⟨1, registered⟩, rfl, rfl, rfl, rfl⟩⟩

/-- C5, as stated, fails: in this run `birdInstance.Run` returns an error while `ctx`
is not cancelled, both goroutines run to their end, and the daemon has been started
once only: the bird goroutine logs the error and ends. -/
theorem router_bird_restart_counterexample :
    failingBirdEnv.birdRun = some (some "bird: exit status 1") ∧
    failingBirdEnv.ctxCancelled = false ∧
    eventsOf Thread.bird
        (processTrace failingBirdEnv sampleOptions sampleSchedule) =
      [Event.birdRun, Event.birdRunReturned (some "bird: exit status 1"),
        Event.logError "bird: exit status 1" "failed to start bird"] ∧
    eventsOf Thread.main
        (processTrace failingBirdEnv sampleOptions sampleSchedule) =
      (run failingBirdEnv sampleOptions).trace ∧
    (processTrace failingBirdEnv sampleOptions sampleSchedule).count
      (Thread.bird, Event.birdRun) = 1 := by
  decide

/-- C5, amended: the router's `run` starts the BGP daemon once, in a goroutine of its
own.  `run` executes its `go` statement exactly when its start-up and the check of
manager creation are passed, and at most once; the daemon is started only by the goroutine spawned there,
never by the goroutine executing `run` and never more than once; once `run` has
executed the `go` statement and is still executing, a step of the spawned goroutine
starts the daemon, so it is started exactly once; and when `birdInstance.Run` returns
an error, that goroutine logs the error and ends: the daemon is not started again,
whether or not the context is cancelled. -/
theorem router_bird_started_once (env : Env) (ro : runOptions) :
    (Event.goBird ∈ (run env ro).trace ↔
      startsUp env.toEnv = true ∧
      passes env.toEnv (env.newManager (managerOptions registered)).2 = true) ∧
    (run env ro).trace.count Event.goBird ≤ 1 ∧
    (∀ sched, (processTrace env ro sched).count (Thread.bird, Event.birdRun) ≤ 1 ∧
      (Thread.main, Event.birdRun) ∉ processTrace env ro sched ∧
      ((Thread.bird, Event.birdRun) ∈ processTrace env ro sched →
        Event.goBird ∈ (run env ro).trace)) ∧
    (∀ s1 s2, s1.count true ≤ (run env ro).trace.length →
      Event.goBird ∈ (run env ro).trace.take (s1.count true) →
      (processTrace env ro (s1 ++ false :: s2)).count (Thread.bird, Event.birdRun) = 1) ∧
    (∀ e, env.birdRun = some (some e) →
      (birdTask env).trace =
        [Event.birdRun, Event.birdRunReturned (some e),
          Event.logError e "failed to start bird"]) := by
  have hle : ∀ sched, (processTrace env ro sched).count (Thread.bird, Event.birdRun) ≤ 1 := by
    intro sched
    refine le_trans (count_bird_interleave Event.birdRun sched false _ _ _) ?_
    rw [birdTask_trace]
    rcases env.birdRun with _ | _ | e <;> simp
  refine ⟨router_goBird_mem_iff env ro, router_goBird_count env ro, ?_, ?_, ?_⟩
  · intro sched
    refine ⟨hle sched, ?_, ?_⟩
    · intro hmem
      have h : Event.birdRun ∈ eventsOf Thread.main (processTrace env ro sched) := by
        simp only [eventsOf, List.mem_map, List.mem_filter, decide_eq_true_eq]
        exact ⟨_, ⟨hmem, rfl⟩, rfl⟩
      unfold processTrace at h
      rw [birdTask_result, eventsOf_main_interleave] at h
      exact birdRun_not_mem_run env ro (List.mem_of_mem_take h)
    · intro hmem
      rcases bird_mem_interleave _ sched false _ _ _ hmem with h | h
      · cases h
      · exact h
  · intro s1 s2 hlen hgo
    refine le_antisymm (hle _) ?_
    have htask : ∃ ts, (birdTask env).trace = Event.birdRun :: ts := by
      rw [birdTask_trace]
      rcases env.birdRun with _ | _ | e <;> simp
    obtain ⟨ts, hts⟩ := htask
    have hmem : (Thread.bird, Event.birdRun) ∈ processTrace env ro (s1 ++ false :: s2) := by
      unfold processTrace
      rw [birdTask_result, hts]
      exact bird_first_call Event.birdRun ts s2 s1 false _ hlen (Or.inr hgo)
    exact List.count_pos_iff.mpr hmem
  · intro e he
    rw [birdTask_trace, he]

/-- C5, amended, at a concrete input: `run` reaches its `go` statement, the daemon is
started exactly once, and its error is logged. -/
theorem router_bird_started_once_witness :
    Event.goBird ∈ (run failingBirdEnv sampleOptions).trace ∧
    (processTrace failingBirdEnv sampleOptions sampleSchedule).count
      (Thread.bird, Event.birdRun) = 1 ∧
    (birdTask failingBirdEnv).trace =
      [Event.birdRun, Event.birdRunReturned (some "bird: exit status 1"),
        Event.logError "bird: exit status 1" "failed to start bird"] :=
  have h := router_bird_started_once failingBirdEnv sampleOptions
  ⟨h.1.mpr ⟨rfl, rfl⟩,
    h.2.2.2.1 (List.replicate 9 true)
      (List.replicate 4 false ++ List.replicate 4 true ++ List.replicate 5 false)
      (by decide) (by decide),
    h.2.2.2.2 "bird: exit status 1" rfl⟩

end Router

end Meridio

namespace Meridio

namespace TableIDAllocator

theorem mem_slots (t : TableIDAllocator) (id : Int) :
    id ∈ t.slots ↔ t.minID ≤ id ∧ id < t.maxID := by
  simp only [slots, List.mem_map, List.mem_range]
  constructor
  · rintro ⟨i, hi, rfl⟩
    simp only [Int.ofNat_eq_coe]
    omega
  · rintro ⟨h1, h2⟩
    refine ⟨(id - t.minID).toNat, by omega, ?_⟩
    simp only [Int.ofNat_eq_coe]
    omega

theorem used_iff (t : TableIDAllocator) (id : Int) :
    t.used id = true ↔ id ∈ t.assigned.map Prod.snd := by
  simp [used]

theorem mem_of_Lookup (t : TableIDAllocator) (key : Key) (id : Int)
    (h : t.Lookup key = some id) : (key, id) ∈ t.assigned := by
  unfold Lookup at h
  rcases hp : t.assigned.find? (fun p => p.1 == key) with _ | p
  · rw [hp] at h
    cases h
  · rw [hp] at h
    have h1 := List.find?_some hp
    have h2 := List.mem_of_find?_eq_some hp
    simp only [beq_iff_eq] at h1
    have h3 : p.2 = id := Option.some.inj h
    rw [← h1, ← h3]
    exact h2

/-- What `Allocate` does: it returns the id the key holds and changes nothing, or it
issues a free slot to a key that holds none, or it fails and changes nothing. -/
theorem Allocate_cases (t : TableIDAllocator) (key : Key) :
    (∃ id, (key, id) ∈ t.assigned ∧ t.Allocate key = (Except.ok id, t)) ∨
    (∃ id, id ∈ t.slots ∧ id ∉ t.assigned.map Prod.snd ∧ t.Lookup key = none ∧
      t.Allocate key = (Except.ok id, { t with assigned := (key, id) :: t.assigned })) ∨
    (∃ e, t.Allocate key = (Except.error e, t)) := by
  unfold Allocate
  rcases h : t.Lookup key with _ | id
  · rcases h2 : t.slots.find? (fun id => !t.used id) with _ | id
    · exact Or.inr (Or.inr ⟨AllocError.PoolExhausted, rfl⟩)
    · refine Or.inr (Or.inl ⟨id, List.mem_of_find?_eq_some h2, ?_, rfl, rfl⟩)
      have h3 := List.find?_some h2
      rw [← used_iff]
      simpa using h3
  · exact Or.inl ⟨id, mem_of_Lookup t key id h, rfl⟩

theorem Inv_Release (t : TableIDAllocator) (key : Key) (h : Inv t) : Inv (t.Release key) := by
  refine ⟨?_, ?_⟩
  · intro p hp
    exact h.1 p (List.mem_of_mem_filter hp)
  · exact List.Nodup.sublist (List.Sublist.map _ (List.filter_sublist _)) h.2

theorem runOps_Inv (ops : List Op) :
    ∀ t : TableIDAllocator, Inv t →
      Inv (runOps t ops).1 ∧ (runOps t ops).1.minID = t.minID ∧
      (runOps t ops).1.maxID = t.maxID ∧
      ∀ p ∈ (runOps t ops).2, t.minID ≤ p.2 ∧ p.2 < t.maxID := by
  induction ops with
  | nil => intro t h; exact ⟨h, rfl, rfl, by simp [runOps]⟩
  | cons op ops ih =>
    intro t h
    cases op with
    | release key =>
      simpa [runOps, Release] using ih (t.Release key) (Inv_Release t key h)
    | allocate key =>
      rcases Allocate_cases t key with ⟨id, hmem, he⟩ | ⟨id, hs, hfree, -, he⟩ | ⟨e, he⟩
      · obtain ⟨h1, h2, h3, h4⟩ := ih t h
        simp only [runOps, he]
        refine ⟨h1, h2, h3, ?_⟩
        intro p hp
        rcases List.mem_cons.mp hp with hp | hp
        · rw [hp]
          exact h.1 _ hmem
        · exact h4 p hp
      · have hinv : Inv { t with assigned := (key, id) :: t.assigned } := by
          refine ⟨?_, ?_⟩
          · intro p hp
            rcases List.mem_cons.mp hp with hp | hp
            · rw [hp]
              exact (mem_slots t id).mp hs
            · exact h.1 p hp
          · simp only [List.map_cons]
            exact List.nodup_cons.mpr ⟨hfree, h.2⟩
        obtain ⟨h1, h2, h3, h4⟩ := ih _ hinv
        simp only [runOps, he]
        refine ⟨h1, h2, h3, ?_⟩
        intro p hp
        rcases List.mem_cons.mp hp with hp | hp
        · rw [hp]
          exact (mem_slots t id).mp hs
        · exact h4 p hp
      · simpa [runOps, he] using ih t h

/-- Under the invariant, two keys that hold the same id are the same key. -/
theorem Lookup_injective (t : TableIDAllocator) (h : Inv t) (k1 k2 : Key) (id : Int)
    (h1 : t.Lookup k1 = some id) (h2 : t.Lookup k2 = some id) : k1 = k2 := by
  have m1 := mem_of_Lookup t k1 id h1
  have m2 := mem_of_Lookup t k2 id h2
  have := List.inj_on_of_nodup_map h.2 m1 m2 rfl
  exact congrArg Prod.fst this

end TableIDAllocator

end Meridio

namespace Meridio

namespace TableIDAllocator

/-- A fresh allocator satisfies the invariant. -/
theorem Inv_new (a : network.Annotater) : Inv (new a) :=
  ⟨by simp [new], by simp [new]⟩

/-- C7: on the allocator of the annotater that controller-manager `run` configures,
after every sequence of `Allocate` and `Release` calls, every id an `Allocate` returned
satisfies `50000 ≤ id < 55000` and two keys that hold the same id are the same key. -/
theorem allocator_ids_in_range_and_exclusive (GetIPs : GetIPsFunc)
    (env : Env ControllerManager.AnyController) (ro : ControllerManager.runOptions)
    (c : podnetworkannotator.Controller) (ops : List Op)
    (h : Event.setupWithManager (ControllerManager.AnyController.podnetworkannotator c) ∈
      (ControllerManager.run GetIPs env ro).trace) :
    (∀ p ∈ (runOps (new c.NetworkAnnotator) ops).2, 50000 ≤ p.2 ∧ p.2 < 55000) ∧
    (∀ k1 k2 id, (runOps (new c.NetworkAnnotator) ops).1.Lookup k1 = some id →
      (runOps (new c.NetworkAnnotator) ops).1.Lookup k2 = some id → k1 = k2) := by
  rw [ControllerManager.annotater_of_mem GetIPs env ro c h]
  obtain ⟨h1, -, -, h4⟩ := runOps_Inv ops (new ⟨50000, 55000⟩) (Inv_new _)
  exact ⟨h4, fun k1 k2 id => Lookup_injective _ h1 k1 k2 id⟩

set_option maxRecDepth 1000000 in
/-- On the shipped range, a fresh allocator issues 50000, then 50001, and after the
release of the first key issues 50000 again. -/
theorem runOps_fresh_example :
    (runOps (new shipped) sampleOps).2 =
      [(("pod-c", "net1"), 50000), (("pod-d", "net1"), 50001),
        (("pod-e", "net1"), 50000)] := by
  decide

set_option maxRecDepth 1000000 in
/-- Recovered from pods holding 50000 and 50001, the allocator issues 50002, 50003 and,
after the release, 50002 again. -/
theorem runOps_recovered_example :
    (runOps (recover shipped samplePublished) sampleOps).2 =
      [(("pod-c", "net1"), 50002), (("pod-d", "net1"), 50003),
        (("pod-e", "net1"), 50002)] := by
  decide

/-- C7 at a concrete input: the ids issued to the sample calls by the allocator of the
annotater registered when every call of `run` succeeds. -/
theorem allocator_ids_in_range_and_exclusive_witness :
    (∀ p ∈ (runOps (new shipped) sampleOps).2, 50000 ≤ p.2 ∧ p.2 < 55000) ∧
    (∀ k1 k2 id, (runOps (new shipped) sampleOps).1.Lookup k1 = some id →
      (runOps (new shipped) sampleOps).1.Lookup k2 = some id → k1 = k2) :=
  allocator_ids_in_range_and_exclusive ControllerManager.sampleGetIPs ControllerManager.okEnv
    ControllerManager.sampleOptions ControllerManager.samplePodNetworkAnnotator sampleOps
    (by
      simp [ControllerManager.run_okEnv, ControllerManager.podnetworkannotatorOf,
        ControllerManager.samplePodNetworkAnnotator, ControllerManager.sampleOptions])

end TableIDAllocator

end Meridio
